import Mathlib

/-!
Shallow embedding of the playoff re-seeding / cascading-invalidation engine and the
leaderboard calculator of the `nfl-playoff-predictor` server
(`src/server/src/services/season.ts`-style service code and
`src/server/src/services/leaderboard.ts`), together with proofs settling the frozen
claims about them.

Modelling conventions:
* One season is modelled; `season_id` columns are dropped (every SQL statement in the
  modelled functions is already scoped to a single season).
* SQLite rows become Lean structures; nullable TEXT/INTEGER columns become `Option`.
* `UPDATE ... WHERE id = ?` becomes a map over the stored list touching matching ids;
  `UPDATE ... WHERE round = ?` likewise.
* JavaScript truthiness of a nullable string column (`!game.winner`) is modelled
  exactly: `null` and the empty string are falsy.
* `Array.prototype.sort` with a numeric comparator is a stable sort (ES2019);
  it is modelled with `List.insertionSort`, which is stable for the same key order.
* TypeScript non-null assertions (`x!`) and unchecked indexing (`xs[i]`) would throw
  at runtime when the value is missing; those spots are modelled with explicit
  defaults/`Option`s and are commented where they occur.  All bracket theorems are
  about standard 13-game brackets where such a failure cannot occur.
-/

namespace NflPredictor

/-- Conference of a playoff seed (`playoff_seeds.conference` TEXT column). -/
inductive Conf where
  | AFC
  | NFC
deriving DecidableEq, Repr

/-- SQLite compares the TEXT values `'AFC' < 'NFC'`; used by `ORDER BY conference`. -/
def Conf.sqlKey : Conf → Nat
  | .AFC => 0
  | .NFC => 1

/-- Playoff round (`games.round` TEXT column). -/
inductive Round where
  | wild_card
  | divisional
  | conference
  | super_bowl
deriving DecidableEq, Repr

/-- SQLite compares the TEXT values alphabetically:
`'conference' < 'divisional' < 'super_bowl' < 'wild_card'`; used by `ORDER BY round`. -/
def Round.sqlKey : Round → Nat
  | .conference => 0
  | .divisional => 1
  | .super_bowl => 2
  | .wild_card => 3

/-- A row of the `games` table.  `espn_event_id` is dropped (never read by the
modelled functions); `season_id` is dropped per the single-season convention. -/
structure Game where
  id : Nat
  round : Round
  game_number : Nat
  team_home : String
  team_away : String
  seed_home : Option Int
  seed_away : Option Int
  winner : Option String
  completed : Bool
  is_actual_matchup : Bool
deriving DecidableEq, Repr

/-- A row of the `playoff_seeds` table (single-season convention). -/
structure PlayoffSeed where
  conference : Conf
  seed : Int
  team_abbr : String
deriving DecidableEq, Repr

/-- The per-season slice of the database the engine reads and writes. -/
structure SeasonState where
  games : List Game
  seeds : List PlayoffSeed
deriving DecidableEq, Repr

/-- JavaScript truthiness of a nullable TEXT column: `null` and `''` are falsy. -/
def strTruthy : Option String → Bool
  | none => false
  | some s => s != ""

/-- `ORDER BY round, game_number` (SQLite TEXT collation on `round`). -/
def gameLe (a b : Game) : Prop :=
  a.round.sqlKey < b.round.sqlKey ∨
    (a.round.sqlKey = b.round.sqlKey ∧ a.game_number ≤ b.game_number)

instance : DecidableRel gameLe := fun a b =>
  inferInstanceAs (Decidable (_ ∨ _))

instance : IsTotal Game gameLe where
  total a b := by
    unfold gameLe
    omega

instance : IsTrans Game gameLe where
  trans a b c hab hbc := by
    unfold gameLe at *
    omega

/-- `getGamesBySeason`: `SELECT * FROM games WHERE season_id = ? ORDER BY round, game_number`.
Within a season `(round, game_number)` is UNIQUE, so the sort order is determined. -/
def getGamesBySeason (s : SeasonState) : List Game :=
  s.games.insertionSort gameLe

/-- `ORDER BY conference, seed` on the `playoff_seeds` table. -/
def seedLe (a b : PlayoffSeed) : Prop :=
  a.conference.sqlKey < b.conference.sqlKey ∨
    (a.conference.sqlKey = b.conference.sqlKey ∧ a.seed ≤ b.seed)

instance : DecidableRel seedLe := fun a b =>
  inferInstanceAs (Decidable (_ ∨ _))

/-- `getPlayoffSeeds`: `SELECT * FROM playoff_seeds WHERE season_id = ? ORDER BY conference, seed`. -/
def getPlayoffSeeds (s : SeasonState) : List PlayoffSeed :=
  s.seeds.insertionSort seedLe

/-- `getGameById`: `SELECT * FROM games WHERE id = ?`, first row. -/
def getGameById (s : SeasonState) (gameId : Nat) : Option Game :=
  s.games.find? (fun g => g.id == gameId)

/-- `UPDATE games SET ... WHERE id = ?`: applies `f` to every row whose id matches. -/
def updateById (games : List Game) (gameId : Nat) (f : Game → Game) : List Game :=
  games.map (fun g => if g.id = gameId then f g else g)

/-- `UPDATE games SET ... WHERE season_id = ? AND round = ?`. -/
def updateByRound (games : List Game) (r : Round) (f : Game → Game) : List Game :=
  games.map (fun g => if g.round = r then f g else g)

/-- `SET winner = NULL, completed = 0`. -/
def clearResult (g : Game) : Game :=
  { g with winner := none, completed := false }

/-- Errors the service functions surface.  The source throws plain `Error`s; the spec's
taxonomy maps "Game not found" to NotFoundError and the seed-count failures to
ValidationError, so the model distinguishes the two, keeping the thrown message. -/
inductive ServiceError where
  | notFound (msg : String)
  | validation (msg : String)
deriving DecidableEq, Repr

instance {ε α : Type} [DecidableEq ε] [DecidableEq α] : DecidableEq (Except ε α) :=
  fun a b =>
    match a, b with
    | .error e, .error e' => decidable_of_iff (e = e') (by simp)
    | .ok x, .ok y => decidable_of_iff (x = y) (by simp)
    | .error _, .ok _ => isFalse (by simp)
    | .ok _, .error _ => isFalse (by simp)

/-- `isRoundComplete` helper inside `reseedPlayoffBracket`:
`roundGames.length > 0 && roundGames.every(g => g.completed && g.winner)`. -/
def isRoundComplete (roundGames : List Game) : Bool :=
  decide (0 < roundGames.length) &&
    roundGames.all (fun g => g.completed && strTruthy g.winner)

/-- `getSeedForTeam` helper: first seed row whose `team_abbr` matches, else null.
Note the source searches the whole seed list, ignoring conference. -/
def getSeedForTeam (seeds : List PlayoffSeed) (team : String) : Option Int :=
  (seeds.find? (fun st => st.team_abbr == team)).map (·.seed)

/-- The `{ team, seed }` pairs built for round winners inside `reseedPlayoffBracket`. -/
structure TeamSeed where
  team : String
  seed : Int
deriving DecidableEq, Repr

/-- `.sort((a, b) => a.seed - b.seed)`: stable ascending sort by seed. -/
def sortBySeed (ws : List TeamSeed) : List TeamSeed :=
  ws.insertionSort (fun a b => a.seed ≤ b.seed)

/-- Winners of a list of games, tagged with their seed rank, sorted by seed ascending
(best remaining seed first).  The source reads `g.winner!` under a gate guaranteeing
every winner is a non-empty string, and asserts `getSeedForTeam(...)!` non-null; the
`getD` defaults stand in for those assertions and are never exercised in any theorem
below (each theorem's hypotheses pin the winners and their seeds). -/
def confWinnersSorted (seeds : List PlayoffSeed) (confGames : List Game) : List TeamSeed :=
  sortBySeed (confGames.map (fun g =>
    { team := g.winner.getD "",
      seed := (getSeedForTeam seeds (g.winner.getD "")).getD 0 }))

/-- `seeds.find(s => s.conference === c && s.seed === 1)!.team_abbr`; the non-null
assertion is again replaced by a default that no theorem exercises. -/
def conf1SeedTeam (seeds : List PlayoffSeed) (c : Conf) : String :=
  ((seeds.find? (fun st => st.conference == c && st.seed == 1)).map (·.team_abbr)).getD ""

/-- The `{ home, away }` object passed to a matchup-update helper, together with the
two seed arguments that the source passes alongside it. -/
structure MatchupTarget where
  home : String
  away : String
  seedHome : Option Int
  seedAway : Option Int
deriving DecidableEq, Repr

/-- `updateDivisionalGame(game, teamHome, teamAway, seedHome, seedAway)`.
On a matchup change it rewrites the game, then clears winner/completed on every
`conference` round game of the season ("both AFC and NFC to be safe" per the source
comment) and on the `super_bowl` game. -/
def updateDivisionalGame (s : SeasonState) (game : Game) (mt : MatchupTarget) : SeasonState :=
  let matchupChanged := game.team_home != mt.home || game.team_away != mt.away
  if matchupChanged then
    let games1 := updateById s.games game.id (fun g =>
      { g with team_home := mt.home, team_away := mt.away,
               seed_home := mt.seedHome, seed_away := mt.seedAway,
               is_actual_matchup := true, winner := none, completed := false })
    let games2 := updateByRound games1 .conference clearResult
    let games3 := updateByRound games2 .super_bowl clearResult
    { s with games := games3 }
  else if !game.is_actual_matchup then
    { s with games := updateById s.games game.id (fun g =>
        { g with team_home := mt.home, team_away := mt.away,
                 seed_home := mt.seedHome, seed_away := mt.seedAway,
                 is_actual_matchup := true }) }
  else s

/-- `updateConferenceGame`: same shape, but the cascade clears only the Super Bowl. -/
def updateConferenceGame (s : SeasonState) (game : Game) (mt : MatchupTarget) : SeasonState :=
  let matchupChanged := game.team_home != mt.home || game.team_away != mt.away
  if matchupChanged then
    let games1 := updateById s.games game.id (fun g =>
      { g with team_home := mt.home, team_away := mt.away,
               seed_home := mt.seedHome, seed_away := mt.seedAway,
               is_actual_matchup := true, winner := none, completed := false })
    { s with games := updateByRound games1 .super_bowl clearResult }
  else if !game.is_actual_matchup then
    { s with games := updateById s.games game.id (fun g =>
        { g with team_home := mt.home, team_away := mt.away,
                 seed_home := mt.seedHome, seed_away := mt.seedAway,
                 is_actual_matchup := true }) }
  else s

/-- `updateSuperBowlGame`: same shape, no cascade. -/
def updateSuperBowlGame (s : SeasonState) (game : Game) (mt : MatchupTarget) : SeasonState :=
  let matchupChanged := game.team_home != mt.home || game.team_away != mt.away
  if matchupChanged then
    { s with games := updateById s.games game.id (fun g =>
        { g with team_home := mt.home, team_away := mt.away,
                 seed_home := mt.seedHome, seed_away := mt.seedAway,
                 is_actual_matchup := true, winner := none, completed := false }) }
  else if !game.is_actual_matchup then
    { s with games := updateById s.games game.id (fun g =>
        { g with team_home := mt.home, team_away := mt.away,
                 seed_home := mt.seedHome, seed_away := mt.seedAway,
                 is_actual_matchup := true }) }
  else s

/-- The source indexes `divisionalGames[i]` / `conferenceGames[i]` unconditionally and
would throw a TypeError when the slot is missing; the missing case is modelled as
leaving the store unchanged.  All theorems below concern standard 13-game brackets
where every slot exists, so the two semantics agree there. -/
def applyDivisional (s : SeasonState) (game? : Option Game) (mt : MatchupTarget) : SeasonState :=
  match game? with
  | some game => updateDivisionalGame s game mt
  | none => s

/-- See `applyDivisional`. -/
def applyConference (s : SeasonState) (game? : Option Game) (mt : MatchupTarget) : SeasonState :=
  match game? with
  | some game => updateConferenceGame s game mt
  | none => s

/-- The two divisional matchups `reseedPlayoffBracket` computes for one conference:
`afcGame1 = { home: #1 seed, away: worst remaining }` with seed args `1` and the worst
winner's seed, and `afcGame2 = { home: best winner, away: second-best }`.  The source
indexes `afcWinners[0..2]` unconditionally and would throw a TypeError when fewer
than three winners exist; the `getD` defaults stand in for that, and no theorem
below depends on their values — every concrete input below is a standard bracket
whose gates supply three winners per conference. -/
def confDivTargets (seeds : List PlayoffSeed) (c : Conf) (confWCs : List Game) :
    MatchupTarget × MatchupTarget :=
  let winners := confWinnersSorted seeds confWCs
  let w0 := winners[0]?.getD ⟨"", 0⟩
  let w1 := winners[1]?.getD ⟨"", 0⟩
  let w2 := winners[2]?.getD ⟨"", 0⟩
  (⟨conf1SeedTeam seeds c, w2.team, some 1, some w2.seed⟩,
   ⟨w0.team, w1.team, some w0.seed, some w1.seed⟩)

/-- The conference-championship matchup computed from one conference's two divisional
winners, sorted by seed: best seed at home. -/
def confChampTarget (seeds : List PlayoffSeed) (confDivs : List Game) : MatchupTarget :=
  let winners := confWinnersSorted seeds confDivs
  let w0 := winners[0]?.getD ⟨"", 0⟩
  let w1 := winners[1]?.getD ⟨"", 0⟩
  ⟨w0.team, w1.team, some w0.seed, some w1.seed⟩

/-- The "Re-seed Divisional Round from Wild Card" block of `reseedPlayoffBracket`
(run only under `isRoundComplete(wildCardGames)`). -/
def reseedDivisionalStage (s : SeasonState) (seeds : List PlayoffSeed)
    (wildCardGames divisionalGames : List Game) : SeasonState :=
  let afcWCs := wildCardGames.filter (fun g =>
    decide (1 ≤ g.game_number) && decide (g.game_number ≤ 3))
  let nfcWCs := wildCardGames.filter (fun g =>
    decide (4 ≤ g.game_number) && decide (g.game_number ≤ 6))
  let s1 :=
    if afcWCs.all (fun g => strTruthy g.winner) then
      let ts := confDivTargets seeds .AFC afcWCs
      applyDivisional (applyDivisional s divisionalGames[0]? ts.1) divisionalGames[1]? ts.2
    else s
  if nfcWCs.all (fun g => strTruthy g.winner) then
    let ts := confDivTargets seeds .NFC nfcWCs
    applyDivisional (applyDivisional s1 divisionalGames[2]? ts.1) divisionalGames[3]? ts.2
  else s1

/-- The "Re-seed Conference Championship from Divisional" block
(run only under `isRoundComplete(divisionalGames)`, which the source evaluates on the
games snapshot fetched at the top of `reseedPlayoffBracket` — a stale read). -/
def reseedConferenceStage (s : SeasonState) (seeds : List PlayoffSeed)
    (divisionalGames conferenceGames : List Game) : SeasonState :=
  let afcDivs := divisionalGames.filter (fun g =>
    decide (1 ≤ g.game_number) && decide (g.game_number ≤ 2))
  let nfcDivs := divisionalGames.filter (fun g =>
    decide (3 ≤ g.game_number) && decide (g.game_number ≤ 4))
  let s1 :=
    if afcDivs.all (fun g => strTruthy g.winner) then
      applyConference s conferenceGames[0]? (confChampTarget seeds afcDivs)
    else s
  if nfcDivs.all (fun g => strTruthy g.winner) then
    applyConference s1 conferenceGames[1]? (confChampTarget seeds nfcDivs)
  else s1

/-- The "Re-seed Super Bowl from Conference Championships" block.
`conferenceGames[i].winner!` is again a stale read from the snapshot. -/
def reseedSuperBowlStage (s : SeasonState) (seeds : List PlayoffSeed)
    (conferenceGames : List Game) (sb : Game) : SeasonState :=
  let afcChampion := (conferenceGames[0]?.bind Game.winner).getD ""
  let nfcChampion := (conferenceGames[1]?.bind Game.winner).getD ""
  updateSuperBowlGame s sb
    ⟨afcChampion, nfcChampion, getSeedForTeam seeds afcChampion,
     getSeedForTeam seeds nfcChampion⟩

/-- `reseedPlayoffBracket(seasonId)`.  The games and seeds are fetched once at the
start; every gate and every matchup computation reads that snapshot, while the
updates are applied to the live store — exactly as in the source, where the local
arrays go stale as soon as the first `runExec` fires. -/
def reseedPlayoffBracket (state : SeasonState) : SeasonState :=
  let games := getGamesBySeason state
  let seeds := getPlayoffSeeds state
  let wildCardGames := games.filter (fun g => g.round == .wild_card)
  let divisionalGames := games.filter (fun g => g.round == .divisional)
  let conferenceGames := games.filter (fun g => g.round == .conference)
  let superBowlGame := games.find? (fun g => g.round == .super_bowl)
  let s1 :=
    if isRoundComplete wildCardGames then
      reseedDivisionalStage state seeds wildCardGames divisionalGames
    else state
  let s2 :=
    if isRoundComplete divisionalGames then
      reseedConferenceStage s1 seeds divisionalGames conferenceGames
    else s1
  if isRoundComplete conferenceGames then
    match superBowlGame with
    | some sb => reseedSuperBowlStage s2 seeds conferenceGames sb
    | none => s2
  else s2

/-- `UPDATE games SET winner = ?, completed = 1 WHERE id = ?`. -/
def setWinnerRows (gs : List Game) (gameId : Nat) (winner : String) : List Game :=
  updateById gs gameId (fun g => { g with winner := some winner, completed := true })

/-- `updateGameWinner(gameId, winner)`: 404 on a missing game, otherwise
`UPDATE games SET winner = ?, completed = 1 WHERE id = ?` followed by the full
re-seeding cascade for the game's season.  There is no check that `winner` is one of
the game's two teams. -/
def updateGameWinner (s : SeasonState) (gameId : Nat) (winner : String) :
    Except ServiceError SeasonState :=
  match getGameById s gameId with
  | none => .error (.notFound "Game not found")
  | some _game =>
    .ok (reseedPlayoffBracket { s with games := setWinnerRows s.games gameId winner })

/-- A seed used when the source would index past the end of a seed array (never
reachable behind the length guard in `generatePlayoffGamesFromSeeds`). -/
def dummySeed : PlayoffSeed := ⟨.AFC, 0, ""⟩

/-- One Wild Card insert of `generatePlayoffGamesFromSeeds`:
`is_actual_matchup = 1, completed = 0`, winner NULL.  Ids are normalized to count
from 1 in insertion order (SQLite hands out fresh increasing rowids). -/
def mkWildCardGame (gid num : Nat) (home away : PlayoffSeed) : Game :=
  { id := gid, round := .wild_card, game_number := num,
    team_home := home.team_abbr, team_away := away.team_abbr,
    seed_home := some home.seed, seed_away := some away.seed,
    winner := none, completed := false, is_actual_matchup := true }

/-- One placeholder insert (`'TBD'` teams, NULL seeds, `is_actual_matchup = 0`). -/
def mkPlaceholder (gid : Nat) (r : Round) (num : Nat) : Game :=
  { id := gid, round := r, game_number := num,
    team_home := "TBD", team_away := "TBD",
    seed_home := none, seed_away := none,
    winner := none, completed := false, is_actual_matchup := false }

/-- The 13 rows `generatePlayoffGamesFromSeeds` inserts, in insertion order:
per conference the Wild Card pairings `#2v#7, #3v#6, #4v#5` (AFC slots 1-3, NFC
slots 4-6), then 2+2 divisional placeholders, 1+1 conference placeholders, and the
Super Bowl placeholder. -/
def generatedGames (afcSeeds nfcSeeds : List PlayoffSeed) : List Game :=
  [mkWildCardGame 1 1 (afcSeeds[1]?.getD dummySeed) (afcSeeds[6]?.getD dummySeed),
   mkWildCardGame 2 2 (afcSeeds[2]?.getD dummySeed) (afcSeeds[5]?.getD dummySeed),
   mkWildCardGame 3 3 (afcSeeds[3]?.getD dummySeed) (afcSeeds[4]?.getD dummySeed),
   mkWildCardGame 4 4 (nfcSeeds[1]?.getD dummySeed) (nfcSeeds[6]?.getD dummySeed),
   mkWildCardGame 5 5 (nfcSeeds[2]?.getD dummySeed) (nfcSeeds[5]?.getD dummySeed),
   mkWildCardGame 6 6 (nfcSeeds[3]?.getD dummySeed) (nfcSeeds[4]?.getD dummySeed),
   mkPlaceholder 7 .divisional 1, mkPlaceholder 8 .divisional 2,
   mkPlaceholder 9 .divisional 3, mkPlaceholder 10 .divisional 4,
   mkPlaceholder 11 .conference 1, mkPlaceholder 12 .conference 2,
   mkPlaceholder 13 .super_bowl 1]

/-- `generatePlayoffGamesFromSeeds(seasonId)`.  Throws before any mutation when the
season has no seeds or a conference has fewer than 7 (the check is `< 7`, not
`!== 7`); otherwise deletes every game of the season and inserts the 13 fresh rows.
An error therefore always leaves the stored games untouched: both throws precede the
DELETE. -/
def generatePlayoffGamesFromSeeds (s : SeasonState) : Except ServiceError SeasonState :=
  let seeds := getPlayoffSeeds s
  if seeds.length = 0 then
    .error (.validation "No playoff seeds defined for this season")
  else
    let afcSeeds := (seeds.filter (fun st => st.conference == .AFC)).insertionSort
      (fun a b => a.seed ≤ b.seed)
    let nfcSeeds := (seeds.filter (fun st => st.conference == .NFC)).insertionSort
      (fun a b => a.seed ≤ b.seed)
    if afcSeeds.length < 7 ∨ nfcSeeds.length < 7 then
      .error (.validation "Each conference must have 7 seeds defined")
    else
      .ok { s with games := generatedGames afcSeeds nfcSeeds }

/-! ## Leaderboard (`src/server/src/services/leaderboard.ts`) -/

/-- A row of the `participants` table (columns the calculator reads). -/
structure Participant where
  id : Nat
  name : String
deriving DecidableEq, Repr

/-- A row of the `predictions` table (columns the calculator reads). -/
structure Prediction where
  participant_id : Nat
  game_id : Nat
  predicted_winner : String
  predicted_opponent : Option String
deriving DecidableEq, Repr

/-- `lobbies.scoring_type`. -/
inductive ScoringType where
  | simple
  | weighted
  | bracket
  | both
deriving DecidableEq, Repr

/-- The `WEIGHTED_POINTS` table. -/
def WEIGHTED_POINTS : Round → Int
  | .wild_card => 1
  | .divisional => 2
  | .conference => 3
  | .super_bowl => 5

/-- Return value of `calculatePoints`. -/
structure PointsResult where
  simple : Int
  weighted : Int
  isCorrect : Bool
deriving DecidableEq, Repr

/-- `calculatePoints(game, prediction, scoringType)`.  The `scoringType` parameter is
unused in the source as well.  `!game.winner` is JS truthiness: null or `''`. -/
def calculatePoints (game : Game) (prediction : Prediction)
    (_scoringType : ScoringType) : PointsResult :=
  if !game.completed || !strTruthy game.winner then
    ⟨0, 0, false⟩
  else if !(game.winner == some prediction.predicted_winner) then
    ⟨0, 0, false⟩
  else
    ⟨1, WEIGHTED_POINTS game.round, true⟩

/-- Closed-form characterization of `calculatePoints`: full points exactly when the
game is completed with a non-null, non-empty winner equal to the prediction. -/
theorem calculatePoints_eq (g : Game) (p : Prediction) (st : ScoringType) :
    calculatePoints g p st =
      if g.completed = true ∧ ∃ w, g.winner = some w ∧ w ≠ "" ∧ p.predicted_winner = w
      then ⟨1, WEIGHTED_POINTS g.round, true⟩
      else ⟨0, 0, false⟩ := by
  rcases g with ⟨gid, rd, num, th, ta, sh, sa, w?, comp, act⟩
  rcases comp <;> rcases w? with _ | w
  · simp [calculatePoints, strTruthy]
  · simp [calculatePoints, strTruthy]
  · simp [calculatePoints, strTruthy]
  · by_cases hne : w = ""
    · subst hne
      simp [calculatePoints, strTruthy]
    · by_cases heq : p.predicted_winner = w
      · simp [calculatePoints, strTruthy, hne, heq]
      · simp [calculatePoints, strTruthy, hne, heq]
        exact fun h => heq h.symm

/-- A `LeaderboardEntry`. -/
structure LeaderboardEntry where
  participantId : Nat
  name : String
  simpleScore : Int
  weightedScore : Int
  correctPicks : Nat
  totalPicks : Nat
deriving DecidableEq, Repr

/-- The JS `Map` keyed by participant id, as an insertion-ordered association list. -/
def initialEntries (participants : List Participant) : List (Nat × LeaderboardEntry) :=
  participants.map (fun p => (p.id, ⟨p.id, p.name, 0, 0, 0, 0⟩))

/-- In-place mutation of the entry object held in the `Map` for key `k`.  A lobby's
predictions join its own participants, so the key is always present; on a foreign key
the source would throw (`.get(...)!` is asserted non-null) — modelled as a no-op,
never exercised below. -/
def mapUpdate (m : List (Nat × LeaderboardEntry)) (k : Nat)
    (f : LeaderboardEntry → LeaderboardEntry) : List (Nat × LeaderboardEntry) :=
  m.map (fun kv => if kv.1 = k then (kv.1, f kv.2) else kv)

/-- The body of the prediction loop in `calculateLeaderboard`: skip predictions whose
game no longer exists, bump `totalPicks`, and on a correct pick add both scores. -/
def applyPrediction (games : List Game) (scoringType : ScoringType)
    (m : List (Nat × LeaderboardEntry)) (p : Prediction) : List (Nat × LeaderboardEntry) :=
  match games.find? (fun g => g.id == p.game_id) with
  | none => m
  | some game =>
    mapUpdate m p.participant_id (fun entry =>
      let entry1 := { entry with totalPicks := entry.totalPicks + 1 }
      let points := calculatePoints game p scoringType
      if points.isCorrect then
        { entry1 with correctPicks := entry1.correctPicks + 1,
                      simpleScore := entry1.simpleScore + points.simple,
                      weightedScore := entry1.weightedScore + points.weighted }
      else entry1)

/-- The entry list before the final sort (`Array.from(leaderboard.values())`,
in participant order). -/
def leaderboardEntries (games : List Game) (predictions : List Prediction)
    (participants : List Participant) (scoringType : ScoringType) : List LeaderboardEntry :=
  (predictions.foldl (applyPrediction games scoringType) (initialEntries participants)).map (·.2)

/-- `calculateLeaderboard(lobbyId, seasonId, scoringType)`.  `games`, `predictions`
and `participants` stand for the three fetches (their fetch order only matters for
the participant `Map`, which preserves participant order, and is modelled so).
The final `.sort` is V8's stable sort with a numeric comparator: `simple` sorts by
simple score descending, `weighted` by weighted score descending, and every other
scoring type (including `'both'`) falls into the `else` branch, sorting by simple
score descending only. -/
def calculateLeaderboard (games : List Game) (predictions : List Prediction)
    (participants : List Participant) (scoringType : ScoringType) : List LeaderboardEntry :=
  let entries := leaderboardEntries games predictions participants scoringType
  if scoringType = .simple then
    entries.insertionSort (fun a b => b.simpleScore ≤ a.simpleScore)
  else if scoringType = .weighted then
    entries.insertionSort (fun a b => b.weightedScore ≤ a.weightedScore)
  else
    entries.insertionSort (fun a b => b.simpleScore ≤ a.simpleScore)

instance : IsTotal LeaderboardEntry (fun a b => b.simpleScore ≤ a.simpleScore) :=
  ⟨fun a b => le_total b.simpleScore a.simpleScore⟩

instance : IsTrans LeaderboardEntry (fun a b => b.simpleScore ≤ a.simpleScore) :=
  ⟨fun _ _ _ h1 h2 => le_trans h2 h1⟩

/-! ## Standard 13-game brackets

The bracket claims quantify over season states holding the standard 13 playoff
games (6 wild card, 4 divisional, 2 conference, 1 Super Bowl).  `Bracket` packages
one symbolic `Game` per slot; `Bracket.state` lays the rows out in the order
`ORDER BY round, game_number` returns them (row order in the table is unobservable:
every read either sorts or looks up a unique id, so normalizing it loses nothing).
`Bracket.StdShape` pins each slot's id (normalized to 1..13 as `generatePlayoffGamesFromSeeds`
inserts them), round and game number, leaving teams, seeds, winners and flags free. -/

structure Bracket where
  wc1 : Game
  wc2 : Game
  wc3 : Game
  wc4 : Game
  wc5 : Game
  wc6 : Game
  d1 : Game
  d2 : Game
  d3 : Game
  d4 : Game
  c1 : Game
  c2 : Game
  sb : Game
deriving DecidableEq, Repr

/-- Rows of the season, in `ORDER BY round, game_number` order (SQLite TEXT
collation puts `conference < divisional < super_bowl < wild_card`). -/
def Bracket.rows (b : Bracket) : List Game :=
  [b.c1, b.c2, b.d1, b.d2, b.d3, b.d4, b.sb,
   b.wc1, b.wc2, b.wc3, b.wc4, b.wc5, b.wc6]

/-- The season state holding exactly this bracket. -/
def Bracket.state (b : Bracket) (seeds : List PlayoffSeed) : SeasonState :=
  ⟨b.rows, seeds⟩

/-- Ids (1..13 in insertion order), rounds and game numbers of the standard bracket. -/
def Bracket.StdShape (b : Bracket) : Prop :=
  b.wc1.id = 1 ∧ b.wc1.round = .wild_card ∧ b.wc1.game_number = 1 ∧
  b.wc2.id = 2 ∧ b.wc2.round = .wild_card ∧ b.wc2.game_number = 2 ∧
  b.wc3.id = 3 ∧ b.wc3.round = .wild_card ∧ b.wc3.game_number = 3 ∧
  b.wc4.id = 4 ∧ b.wc4.round = .wild_card ∧ b.wc4.game_number = 4 ∧
  b.wc5.id = 5 ∧ b.wc5.round = .wild_card ∧ b.wc5.game_number = 5 ∧
  b.wc6.id = 6 ∧ b.wc6.round = .wild_card ∧ b.wc6.game_number = 6 ∧
  b.d1.id = 7 ∧ b.d1.round = .divisional ∧ b.d1.game_number = 1 ∧
  b.d2.id = 8 ∧ b.d2.round = .divisional ∧ b.d2.game_number = 2 ∧
  b.d3.id = 9 ∧ b.d3.round = .divisional ∧ b.d3.game_number = 3 ∧
  b.d4.id = 10 ∧ b.d4.round = .divisional ∧ b.d4.game_number = 4 ∧
  b.c1.id = 11 ∧ b.c1.round = .conference ∧ b.c1.game_number = 1 ∧
  b.c2.id = 12 ∧ b.c2.round = .conference ∧ b.c2.game_number = 2 ∧
  b.sb.id = 13 ∧ b.sb.round = .super_bowl ∧ b.sb.game_number = 1

instance (b : Bracket) : Decidable b.StdShape := by
  unfold Bracket.StdShape
  infer_instance

/-- The AFC wild card games (`game_number` 1-3) as the engine filters them. -/
def Bracket.afcWCs (b : Bracket) : List Game := [b.wc1, b.wc2, b.wc3]

/-- The NFC wild card games (`game_number` 4-6). -/
def Bracket.nfcWCs (b : Bracket) : List Game := [b.wc4, b.wc5, b.wc6]

/-- The AFC divisional games (`game_number` 1-2). -/
def Bracket.afcDivs (b : Bracket) : List Game := [b.d1, b.d2]

/-- The NFC divisional games (`game_number` 3-4). -/
def Bracket.nfcDivs (b : Bracket) : List Game := [b.d3, b.d4]

/-- On a standard bracket the fetch `ORDER BY round, game_number` returns the rows
as laid out by `Bracket.rows`. -/
theorem getGamesBySeason_bracket (b : Bracket) (seeds : List PlayoffSeed)
    (h : b.StdShape) : getGamesBySeason (b.state seeds) = b.rows := by
  obtain ⟨h1, h2, h3, h4, h5, h6, h7, h8, h9, h10, h11, h12, h13, h14, h15, h16,
    h17, h18, h19, h20, h21, h22, h23, h24, h25, h26, h27, h28, h29, h30,
    h31, h32, h33, h34, h35, h36, h37, h38, h39⟩ := h
  have hsorted : (b.rows).Sorted gameLe := by
    unfold Bracket.rows
    refine List.sorted_cons.mpr ⟨?_, ?_⟩ <;>
      simp_all [gameLe, Round.sqlKey, List.sorted_cons]
  exact hsorted.insertionSort_eq

/-- Round filters and the Super Bowl lookup on a standard bracket's fetched rows. -/
theorem bracket_round_lists (b : Bracket) (h : b.StdShape) :
    b.rows.filter (fun g => g.round == Round.wild_card) =
      [b.wc1, b.wc2, b.wc3, b.wc4, b.wc5, b.wc6] ∧
    b.rows.filter (fun g => g.round == Round.divisional) = [b.d1, b.d2, b.d3, b.d4] ∧
    b.rows.filter (fun g => g.round == Round.conference) = [b.c1, b.c2] ∧
    b.rows.find? (fun g => g.round == Round.super_bowl) = some b.sb := by
  obtain ⟨h1, h2, h3, h4, h5, h6, h7, h8, h9, h10, h11, h12, h13, h14, h15, h16,
    h17, h18, h19, h20, h21, h22, h23, h24, h25, h26, h27, h28, h29, h30,
    h31, h32, h33, h34, h35, h36, h37, h38, h39⟩ := h
  refine ⟨?_, ?_, ?_, ?_⟩ <;> (simp only [Bracket.rows, List.filter, List.find?, *]; rfl)

/-- The per-conference `game_number` filters on a standard bracket. -/
theorem bracket_conf_lists (b : Bracket) (h : b.StdShape) :
    [b.wc1, b.wc2, b.wc3, b.wc4, b.wc5, b.wc6].filter
      (fun g => decide (1 ≤ g.game_number) && decide (g.game_number ≤ 3)) = b.afcWCs ∧
    [b.wc1, b.wc2, b.wc3, b.wc4, b.wc5, b.wc6].filter
      (fun g => decide (4 ≤ g.game_number) && decide (g.game_number ≤ 6)) = b.nfcWCs ∧
    [b.d1, b.d2, b.d3, b.d4].filter
      (fun g => decide (1 ≤ g.game_number) && decide (g.game_number ≤ 2)) = b.afcDivs ∧
    [b.d1, b.d2, b.d3, b.d4].filter
      (fun g => decide (3 ≤ g.game_number) && decide (g.game_number ≤ 4)) = b.nfcDivs := by
  obtain ⟨h1, h2, h3, h4, h5, h6, h7, h8, h9, h10, h11, h12, h13, h14, h15, h16,
    h17, h18, h19, h20, h21, h22, h23, h24, h25, h26, h27, h28, h29, h30,
    h31, h32, h33, h34, h35, h36, h37, h38, h39⟩ := h
  refine ⟨?_, ?_, ?_, ?_⟩ <;>
    simp [Bracket.afcWCs, Bracket.nfcWCs, Bracket.afcDivs, Bracket.nfcDivs,
      List.filter, *]

/-- A matchup-update call whose computed pair matches the stored pair on a game
already marked actual is a no-op (divisional helper). -/
theorem updateDivisionalGame_noop (s : SeasonState) (t : Game) (mt : MatchupTarget)
    (hh : t.team_home = mt.home) (ha : t.team_away = mt.away)
    (hact : t.is_actual_matchup = true) :
    updateDivisionalGame s t mt = s := by
  unfold updateDivisionalGame
  simp [hh, ha, hact]

/-- No-op branch of the conference helper. -/
theorem updateConferenceGame_noop (s : SeasonState) (t : Game) (mt : MatchupTarget)
    (hh : t.team_home = mt.home) (ha : t.team_away = mt.away)
    (hact : t.is_actual_matchup = true) :
    updateConferenceGame s t mt = s := by
  unfold updateConferenceGame
  simp [hh, ha, hact]

/-- No-op branch of the Super Bowl helper. -/
theorem updateSuperBowlGame_noop (s : SeasonState) (t : Game) (mt : MatchupTarget)
    (hh : t.team_home = mt.home) (ha : t.team_away = mt.away)
    (hact : t.is_actual_matchup = true) :
    updateSuperBowlGame s t mt = s := by
  unfold updateSuperBowlGame
  simp [hh, ha, hact]

/-- Re-writing a winner/completed pair that is already stored changes nothing. -/
theorem setWinnerRows_self (gs : List Game) (gameId : Nat) (w : String)
    (h : ∀ g ∈ gs, g.id = gameId → g.winner = some w ∧ g.completed = true) :
    setWinnerRows gs gameId w = gs := by
  unfold setWinnerRows updateById
  have hcongr : ∀ g ∈ gs,
      (if g.id = gameId then
        { g with winner := some w, completed := true } else g) = id g := by
    intro g hg
    by_cases hid : g.id = gameId
    · obtain ⟨hw, hc⟩ := h g hg hid
      simp only [hid, if_true, id]
      cases g
      simp_all
    · simp [hid]
  rw [List.map_congr_left hcongr, List.map_id]

/-- Every game of the bracket is decided: completed with a (JS-truthy) winner. -/
def Bracket.Decided (b : Bracket) : Prop :=
  ∀ g ∈ b.rows, g.completed = true ∧ strTruthy g.winner = true

instance (b : Bracket) : Decidable b.Decided := by
  unfold Bracket.Decided
  infer_instance

/-- The stored downstream matchups agree with what the engine would recompute from
the stored winners, and each downstream game is marked as an actual matchup: the
condition under which every matchup-update call of a re-seeding run lands in its
no-op branch. -/
def Bracket.Consistent (b : Bracket) (seeds : List PlayoffSeed) : Prop :=
  b.d1.team_home = (confDivTargets (getPlayoffSeeds (b.state seeds)) .AFC b.afcWCs).1.home ∧
  b.d1.team_away = (confDivTargets (getPlayoffSeeds (b.state seeds)) .AFC b.afcWCs).1.away ∧
  b.d1.is_actual_matchup = true ∧
  b.d2.team_home = (confDivTargets (getPlayoffSeeds (b.state seeds)) .AFC b.afcWCs).2.home ∧
  b.d2.team_away = (confDivTargets (getPlayoffSeeds (b.state seeds)) .AFC b.afcWCs).2.away ∧
  b.d2.is_actual_matchup = true ∧
  b.d3.team_home = (confDivTargets (getPlayoffSeeds (b.state seeds)) .NFC b.nfcWCs).1.home ∧
  b.d3.team_away = (confDivTargets (getPlayoffSeeds (b.state seeds)) .NFC b.nfcWCs).1.away ∧
  b.d3.is_actual_matchup = true ∧
  b.d4.team_home = (confDivTargets (getPlayoffSeeds (b.state seeds)) .NFC b.nfcWCs).2.home ∧
  b.d4.team_away = (confDivTargets (getPlayoffSeeds (b.state seeds)) .NFC b.nfcWCs).2.away ∧
  b.d4.is_actual_matchup = true ∧
  b.c1.team_home = (confChampTarget (getPlayoffSeeds (b.state seeds)) b.afcDivs).home ∧
  b.c1.team_away = (confChampTarget (getPlayoffSeeds (b.state seeds)) b.afcDivs).away ∧
  b.c1.is_actual_matchup = true ∧
  b.c2.team_home = (confChampTarget (getPlayoffSeeds (b.state seeds)) b.nfcDivs).home ∧
  b.c2.team_away = (confChampTarget (getPlayoffSeeds (b.state seeds)) b.nfcDivs).away ∧
  b.c2.is_actual_matchup = true ∧
  b.sb.team_home = b.c1.winner.getD "" ∧
  b.sb.team_away = b.c2.winner.getD "" ∧
  b.sb.is_actual_matchup = true

instance (b : Bracket) (seeds : List PlayoffSeed) : Decidable (b.Consistent seeds) := by
  unfold Bracket.Consistent
  infer_instance

/-- A re-seeding run over a fully decided, consistent standard bracket is the
identity: every matchup-update lands in its no-op branch. -/
theorem reseedPlayoffBracket_consistent_noop (b : Bracket) (seeds : List PlayoffSeed)
    (hs : b.StdShape) (hd : b.Decided) (hc : b.Consistent seeds) :
    reseedPlayoffBracket (b.state seeds) = b.state seeds := by
  obtain ⟨hwcf, hdvf, hcff, hsbf⟩ := bracket_round_lists b hs
  obtain ⟨hafcw, hnfcw, hafcd, hnfcd⟩ := bracket_conf_lists b hs
  have hwc1 := hd b.wc1 (by simp [Bracket.rows])
  have hwc2 := hd b.wc2 (by simp [Bracket.rows])
  have hwc3 := hd b.wc3 (by simp [Bracket.rows])
  have hwc4 := hd b.wc4 (by simp [Bracket.rows])
  have hwc5 := hd b.wc5 (by simp [Bracket.rows])
  have hwc6 := hd b.wc6 (by simp [Bracket.rows])
  have hd1 := hd b.d1 (by simp [Bracket.rows])
  have hd2 := hd b.d2 (by simp [Bracket.rows])
  have hd3 := hd b.d3 (by simp [Bracket.rows])
  have hd4 := hd b.d4 (by simp [Bracket.rows])
  have hc1 := hd b.c1 (by simp [Bracket.rows])
  have hc2 := hd b.c2 (by simp [Bracket.rows])
  have hsb := hd b.sb (by simp [Bracket.rows])
  obtain ⟨k1, k2, k3, k4, k5, k6, k7, k8, k9, k10, k11, k12, k13, k14, k15,
    k16, k17, k18, k19, k20, k21⟩ := hc
  simp only [Bracket.afcWCs, Bracket.nfcWCs, Bracket.afcDivs, Bracket.nfcDivs]
    at k1 k2 k4 k5 k7 k8 k10 k11 k13 k14 k16 k17
  have hdiv : reseedDivisionalStage (b.state seeds) (getPlayoffSeeds (b.state seeds))
      [b.wc1, b.wc2, b.wc3, b.wc4, b.wc5, b.wc6] [b.d1, b.d2, b.d3, b.d4] =
      b.state seeds := by
    unfold reseedDivisionalStage
    rw [hafcw, hnfcw]
    simp only [Bracket.afcWCs, Bracket.nfcWCs, List.all_cons, List.all_nil,
      hwc1.2, hwc2.2, hwc3.2, hwc4.2, hwc5.2, hwc6.2, Bool.and_self, if_true]
    simp only [List.getElem?_cons_zero, List.getElem?_cons_succ, applyDivisional]
    rw [updateDivisionalGame_noop _ _ _ k1 k2 k3,
      updateDivisionalGame_noop _ _ _ k4 k5 k6,
      updateDivisionalGame_noop _ _ _ k7 k8 k9,
      updateDivisionalGame_noop _ _ _ k10 k11 k12]
  have hconf : reseedConferenceStage (b.state seeds) (getPlayoffSeeds (b.state seeds))
      [b.d1, b.d2, b.d3, b.d4] [b.c1, b.c2] = b.state seeds := by
    unfold reseedConferenceStage
    rw [hafcd, hnfcd]
    simp only [Bracket.afcDivs, Bracket.nfcDivs, List.all_cons, List.all_nil,
      hd1.2, hd2.2, hd3.2, hd4.2, Bool.and_self, if_true]
    simp only [List.getElem?_cons_zero, List.getElem?_cons_succ, applyConference]
    rw [updateConferenceGame_noop _ _ _ k13 k14 k15,
      updateConferenceGame_noop _ _ _ k16 k17 k18]
  have hsbst : reseedSuperBowlStage (b.state seeds) (getPlayoffSeeds (b.state seeds))
      [b.c1, b.c2] b.sb = b.state seeds := by
    unfold reseedSuperBowlStage
    simp only [List.getElem?_cons_zero, List.getElem?_cons_succ, Option.bind_some]
    exact updateSuperBowlGame_noop _ _ _ k19 k20 k21
  unfold reseedPlayoffBracket
  rw [getGamesBySeason_bracket b seeds hs]
  simp only [hwcf, hdvf, hcff, hsbf]
  simp only [isRoundComplete, List.all_cons, List.all_nil, List.length_cons,
    hwc1.1, hwc1.2, hwc2.1, hwc2.2, hwc3.1, hwc3.2, hwc4.1, hwc4.2, hwc5.1, hwc5.2,
    hwc6.1, hwc6.2, hd1.1, hd1.2, hd2.1, hd2.2, hd3.1, hd3.2, hd4.1, hd4.2,
    hc1.1, hc1.2, hc2.1, hc2.2, Bool.and_self, Bool.and_true, Bool.true_and]
  norm_num
  rw [hdiv, hconf, hsbst]

/-! ## Cascade machinery: cleared rows stay cleared

Every store update of the engine is a `List.map` over the rows that (a) preserves
each row's `id` and `round` and (b) either preserves a row's winner/completed pair or
clears it — no update helper ever sets a winner.  Hence once every row of a round is
cleared, the rest of the run keeps it cleared. -/

/-- Every row whose round satisfies `R` has no winner and is not completed. -/
def roundCleared (gs : List Game) (R : Round → Prop) : Prop :=
  ∀ g ∈ gs, R g.round → g.winner = none ∧ g.completed = false

/-- The downstream rounds of a divisional game: conference and Super Bowl. -/
def downstreamCleared (s : SeasonState) : Prop :=
  roundCleared s.games (fun r => r = .conference ∨ r = .super_bowl)

/-- The downstream round of a conference game: the Super Bowl. -/
def sbCleared (s : SeasonState) : Prop :=
  roundCleared s.games (fun r => r = .super_bowl)

/-- A matchup-update call whose computed pair differs from the stored pair (the
condition that triggers the invalidation cascade). -/
def matchupDiffers (t : Game) (mt : MatchupTarget) : Prop :=
  ¬(t.team_home = mt.home ∧ t.team_away = mt.away)

instance (t : Game) (mt : MatchupTarget) : Decidable (matchupDiffers t mt) := by
  unfold matchupDiffers
  infer_instance

/-- The Bool guard of the helpers, translated to `matchupDiffers`. -/
theorem matchupChanged_eq (t : Game) (mt : MatchupTarget) :
    (t.team_home != mt.home || t.team_away != mt.away) = true ↔ matchupDiffers t mt := by
  unfold matchupDiffers
  rcases eq_or_ne t.team_home mt.home with h1 | h1 <;>
    rcases eq_or_ne t.team_away mt.away with h2 | h2 <;>
    simp [h1, h2]

/-- Mapping a round-preserving, never-winner-setting function over the rows keeps a
cleared round cleared. -/
theorem roundCleared_map (gs : List Game)
    (R : Round → Prop) (F : Game → Game)
    (hround : ∀ g, (F g).round = g.round)
    (hcm : ∀ g, ((F g).winner = g.winner ∧ (F g).completed = g.completed) ∨
                ((F g).winner = none ∧ (F g).completed = false))
    (h : roundCleared gs R) : roundCleared (gs.map F) R := by
  intro g' hmem hR
  obtain ⟨g0, hg0, rfl⟩ := List.mem_map.mp hmem
  rcases hcm g0 with ⟨hw, hc⟩ | ⟨hw, hc⟩
  · have h0 := h g0 hg0 (by rwa [hround g0] at hR)
    exact ⟨hw.trans h0.1, hc.trans h0.2⟩
  · exact ⟨hw, hc⟩

/-- The row function of `UPDATE ... WHERE id = ?` with the cascade's clearing write. -/
theorem cm_updateById_clear (tid : Nat) (mt : MatchupTarget) :
    (∀ g : Game, ((fun g => if g.id = tid then
        { g with team_home := mt.home, team_away := mt.away,
                 seed_home := mt.seedHome, seed_away := mt.seedAway,
                 is_actual_matchup := true, winner := none, completed := false } else g) g).round
      = g.round) ∧
    (∀ g : Game, ((((fun g => if g.id = tid then
        { g with team_home := mt.home, team_away := mt.away,
                 seed_home := mt.seedHome, seed_away := mt.seedAway,
                 is_actual_matchup := true, winner := none, completed := false } else g) g).winner
        = g.winner) ∧
      (((fun g => if g.id = tid then
        { g with team_home := mt.home, team_away := mt.away,
                 seed_home := mt.seedHome, seed_away := mt.seedAway,
                 is_actual_matchup := true, winner := none, completed := false } else g) g).completed
        = g.completed)) ∨
      ((((fun g => if g.id = tid then
        { g with team_home := mt.home, team_away := mt.away,
                 seed_home := mt.seedHome, seed_away := mt.seedAway,
                 is_actual_matchup := true, winner := none, completed := false } else g) g).winner
        = none) ∧
      (((fun g => if g.id = tid then
        { g with team_home := mt.home, team_away := mt.away,
                 seed_home := mt.seedHome, seed_away := mt.seedAway,
                 is_actual_matchup := true, winner := none, completed := false } else g) g).completed
        = false))) := by
  constructor <;> intro g <;> by_cases hid : g.id = tid <;> simp [hid]

/-- The row function of `UPDATE ... WHERE id = ?` with the teams-only write. -/
theorem cm_updateById_teams (tid : Nat) (mt : MatchupTarget) :
    (∀ g : Game, ((fun g => if g.id = tid then
        { g with team_home := mt.home, team_away := mt.away,
                 seed_home := mt.seedHome, seed_away := mt.seedAway,
                 is_actual_matchup := true } else g) g).round = g.round) ∧
    (∀ g : Game, ((((fun g => if g.id = tid then
        { g with team_home := mt.home, team_away := mt.away,
                 seed_home := mt.seedHome, seed_away := mt.seedAway,
                 is_actual_matchup := true } else g) g).winner = g.winner) ∧
      (((fun g => if g.id = tid then
        { g with team_home := mt.home, team_away := mt.away,
                 seed_home := mt.seedHome, seed_away := mt.seedAway,
                 is_actual_matchup := true } else g) g).completed = g.completed)) ∨
      ((((fun g => if g.id = tid then
        { g with team_home := mt.home, team_away := mt.away,
                 seed_home := mt.seedHome, seed_away := mt.seedAway,
                 is_actual_matchup := true } else g) g).winner = none) ∧
      (((fun g => if g.id = tid then
        { g with team_home := mt.home, team_away := mt.away,
                 seed_home := mt.seedHome, seed_away := mt.seedAway,
                 is_actual_matchup := true } else g) g).completed = false))) := by
  constructor <;> intro g <;> by_cases hid : g.id = tid <;> simp [hid]

/-- The row function of the round-scoped clearing write. -/
theorem cm_updateByRound (r : Round) :
    (∀ g : Game, ((fun g => if g.round = r then clearResult g else g) g).round = g.round) ∧
    (∀ g : Game, ((((fun g => if g.round = r then clearResult g else g) g).winner = g.winner) ∧
      (((fun g => if g.round = r then clearResult g else g) g).completed = g.completed)) ∨
      ((((fun g => if g.round = r then clearResult g else g) g).winner = none) ∧
      (((fun g => if g.round = r then clearResult g else g) g).completed = false))) := by
  constructor <;> intro g <;> by_cases hr : g.round = r <;> simp [hr, clearResult]

/-- A divisional matchup-update keeps any cleared round cleared. -/
theorem updateDivisionalGame_roundCleared (s : SeasonState) (t : Game)
    (mt : MatchupTarget) (R : Round → Prop) (h : roundCleared s.games R) :
    roundCleared (updateDivisionalGame s t mt).games R := by
  obtain ⟨gs, seeds⟩ := s
  unfold updateDivisionalGame updateById updateByRound
  dsimp only
  split
  · exact roundCleared_map _ _ _ (cm_updateByRound .super_bowl).1
      (cm_updateByRound .super_bowl).2
      (roundCleared_map _ _ _ (cm_updateByRound .conference).1
        (cm_updateByRound .conference).2
        (roundCleared_map _ _ _ (cm_updateById_clear t.id mt).1
          (cm_updateById_clear t.id mt).2 h))
  · split
    · exact roundCleared_map _ _ _ (cm_updateById_teams t.id mt).1
        (cm_updateById_teams t.id mt).2 h
    · exact h

/-- A conference matchup-update keeps any cleared round cleared. -/
theorem updateConferenceGame_roundCleared (s : SeasonState) (t : Game)
    (mt : MatchupTarget) (R : Round → Prop) (h : roundCleared s.games R) :
    roundCleared (updateConferenceGame s t mt).games R := by
  obtain ⟨gs, seeds⟩ := s
  unfold updateConferenceGame updateById updateByRound
  dsimp only
  split
  · exact roundCleared_map _ _ _ (cm_updateByRound .super_bowl).1
      (cm_updateByRound .super_bowl).2
      (roundCleared_map _ _ _ (cm_updateById_clear t.id mt).1
        (cm_updateById_clear t.id mt).2 h)
  · split
    · exact roundCleared_map _ _ _ (cm_updateById_teams t.id mt).1
        (cm_updateById_teams t.id mt).2 h
    · exact h

/-- A Super Bowl matchup-update keeps any cleared round cleared. -/
theorem updateSuperBowlGame_roundCleared (s : SeasonState) (t : Game)
    (mt : MatchupTarget) (R : Round → Prop) (h : roundCleared s.games R) :
    roundCleared (updateSuperBowlGame s t mt).games R := by
  obtain ⟨gs, seeds⟩ := s
  unfold updateSuperBowlGame updateById
  dsimp only
  split
  · exact roundCleared_map _ _ _ (cm_updateById_clear t.id mt).1
      (cm_updateById_clear t.id mt).2 h
  · split
    · exact roundCleared_map _ _ _ (cm_updateById_teams t.id mt).1
        (cm_updateById_teams t.id mt).2 h
    · exact h

/-- `applyDivisional` keeps any cleared round cleared. -/
theorem applyDivisional_roundCleared (s : SeasonState) (t? : Option Game)
    (mt : MatchupTarget) (R : Round → Prop) (h : roundCleared s.games R) :
    roundCleared (applyDivisional s t? mt).games R := by
  cases t? with
  | none => exact h
  | some t => exact updateDivisionalGame_roundCleared s t mt R h

/-- `applyConference` keeps any cleared round cleared. -/
theorem applyConference_roundCleared (s : SeasonState) (t? : Option Game)
    (mt : MatchupTarget) (R : Round → Prop) (h : roundCleared s.games R) :
    roundCleared (applyConference s t? mt).games R := by
  cases t? with
  | none => exact h
  | some t => exact updateConferenceGame_roundCleared s t mt R h

/-- A divisional matchup-update whose matchup changed clears the conference round and
the Super Bowl of the whole season. -/
theorem updateDivisionalGame_establishes (s : SeasonState) (t : Game)
    (mt : MatchupTarget) (hch : matchupDiffers t mt) :
    downstreamCleared (updateDivisionalGame s t mt) := by
  obtain ⟨gs, seeds⟩ := s
  unfold updateDivisionalGame updateById updateByRound
  rw [if_pos ((matchupChanged_eq t mt).mpr hch)]
  intro g' hmem hR
  simp only [List.map_map, List.mem_map] at hmem
  obtain ⟨g0, _, rfl⟩ := hmem
  dsimp only [Function.comp]
  rcases hR with hR | hR <;>
    by_cases hid : g0.id = t.id <;>
    by_cases hr1 : g0.round = Round.conference <;>
    by_cases hr2 : g0.round = Round.super_bowl <;>
    simp_all [clearResult]

/-- A conference matchup-update whose matchup changed clears the Super Bowl. -/
theorem updateConferenceGame_establishes (s : SeasonState) (t : Game)
    (mt : MatchupTarget) (hch : matchupDiffers t mt) :
    sbCleared (updateConferenceGame s t mt) := by
  obtain ⟨gs, seeds⟩ := s
  unfold updateConferenceGame updateById updateByRound
  rw [if_pos ((matchupChanged_eq t mt).mpr hch)]
  intro g' hmem hR
  simp only [List.map_map, List.mem_map] at hmem
  obtain ⟨g0, _, rfl⟩ := hmem
  dsimp only [Function.comp]
  by_cases hid : g0.id = t.id <;>
    by_cases hr2 : g0.round = Round.super_bowl <;>
    simp_all [clearResult]

/-- The whole divisional re-seeding stage keeps any cleared round cleared. -/
theorem reseedDivisionalStage_roundCleared (s : SeasonState) (seeds : List PlayoffSeed)
    (wildCardGames divisionalGames : List Game) (R : Round → Prop)
    (h : roundCleared s.games R) :
    roundCleared (reseedDivisionalStage s seeds wildCardGames divisionalGames).games R := by
  unfold reseedDivisionalStage
  dsimp only
  split
  · apply applyDivisional_roundCleared
    apply applyDivisional_roundCleared
    split
    · apply applyDivisional_roundCleared
      apply applyDivisional_roundCleared
      exact h
    · exact h
  · split
    · apply applyDivisional_roundCleared
      apply applyDivisional_roundCleared
      exact h
    · exact h

/-- The conference re-seeding stage keeps any cleared round cleared. -/
theorem reseedConferenceStage_roundCleared (s : SeasonState) (seeds : List PlayoffSeed)
    (divisionalGames conferenceGames : List Game) (R : Round → Prop)
    (h : roundCleared s.games R) :
    roundCleared (reseedConferenceStage s seeds divisionalGames conferenceGames).games R := by
  unfold reseedConferenceStage
  dsimp only
  split
  · apply applyConference_roundCleared
    split
    · apply applyConference_roundCleared
      exact h
    · exact h
  · split
    · apply applyConference_roundCleared
      exact h
    · exact h

/-- The Super Bowl re-seeding stage keeps any cleared round cleared. -/
theorem reseedSuperBowlStage_roundCleared (s : SeasonState) (seeds : List PlayoffSeed)
    (conferenceGames : List Game) (sb : Game) (R : Round → Prop)
    (h : roundCleared s.games R) :
    roundCleared (reseedSuperBowlStage s seeds conferenceGames sb).games R := by
  unfold reseedSuperBowlStage
  exact updateSuperBowlGame_roundCleared _ _ _ R h

/-- On a decided standard bracket, a re-seeding run is exactly the three stages in
sequence, each fed the stale snapshot lists fetched at the start. -/
theorem reseedPlayoffBracket_decided (b : Bracket) (seeds : List PlayoffSeed)
    (hs : b.StdShape) (hd : b.Decided) :
    reseedPlayoffBracket (b.state seeds) =
      reseedSuperBowlStage
        (reseedConferenceStage
          (reseedDivisionalStage (b.state seeds) (getPlayoffSeeds (b.state seeds))
            [b.wc1, b.wc2, b.wc3, b.wc4, b.wc5, b.wc6] [b.d1, b.d2, b.d3, b.d4])
          (getPlayoffSeeds (b.state seeds)) [b.d1, b.d2, b.d3, b.d4] [b.c1, b.c2])
        (getPlayoffSeeds (b.state seeds)) [b.c1, b.c2] b.sb := by
  obtain ⟨hwcf, hdvf, hcff, hsbf⟩ := bracket_round_lists b hs
  have hwc1 := hd b.wc1 (by simp [Bracket.rows])
  have hwc2 := hd b.wc2 (by simp [Bracket.rows])
  have hwc3 := hd b.wc3 (by simp [Bracket.rows])
  have hwc4 := hd b.wc4 (by simp [Bracket.rows])
  have hwc5 := hd b.wc5 (by simp [Bracket.rows])
  have hwc6 := hd b.wc6 (by simp [Bracket.rows])
  have hd1 := hd b.d1 (by simp [Bracket.rows])
  have hd2 := hd b.d2 (by simp [Bracket.rows])
  have hd3 := hd b.d3 (by simp [Bracket.rows])
  have hd4 := hd b.d4 (by simp [Bracket.rows])
  have hc1 := hd b.c1 (by simp [Bracket.rows])
  have hc2 := hd b.c2 (by simp [Bracket.rows])
  unfold reseedPlayoffBracket
  rw [getGamesBySeason_bracket b seeds hs]
  simp only [hwcf, hdvf, hcff, hsbf]
  simp only [isRoundComplete, List.all_cons, List.all_nil, List.length_cons,
    hwc1.1, hwc1.2, hwc2.1, hwc2.2, hwc3.1, hwc3.2, hwc4.1, hwc4.2, hwc5.1, hwc5.2,
    hwc6.1, hwc6.2, hd1.1, hd1.2, hd2.1, hd2.2, hd3.1, hd3.2, hd4.1, hd4.2,
    hc1.1, hc1.2, hc2.1, hc2.2, Bool.and_self, Bool.and_true, Bool.true_and]
  norm_num

/-- C3: for every run of the re-seeding engine over a standard bracket, if the wild
card round is complete (the gate under which the divisional matchups are recomputed
at all) and a divisional game's recomputed matchup differs from the stored pair,
then afterwards every conference-round game and the Super Bowl have winner = null
and completed = false — whatever state the downstream games were in, decided, stale
or still unplayed; and if the divisional round is complete (the gate of the
conference recompute) and a conference game's recomputed matchup differs from its
stored pair, then afterwards the Super Bowl has winner = null and completed =
false. -/
theorem c3_cascade_clears_downstream (b : Bracket) (seeds : List PlayoffSeed)
    (hs : b.StdShape) :
    ((∀ g ∈ [b.wc1, b.wc2, b.wc3, b.wc4, b.wc5, b.wc6],
        g.completed = true ∧ strTruthy g.winner = true) →
     (matchupDiffers b.d1 (confDivTargets (getPlayoffSeeds (b.state seeds)) .AFC b.afcWCs).1 ∨
      matchupDiffers b.d2 (confDivTargets (getPlayoffSeeds (b.state seeds)) .AFC b.afcWCs).2 ∨
      matchupDiffers b.d3 (confDivTargets (getPlayoffSeeds (b.state seeds)) .NFC b.nfcWCs).1 ∨
      matchupDiffers b.d4 (confDivTargets (getPlayoffSeeds (b.state seeds)) .NFC b.nfcWCs).2) →
      downstreamCleared (reseedPlayoffBracket (b.state seeds))) ∧
    ((∀ g ∈ [b.d1, b.d2, b.d3, b.d4],
        g.completed = true ∧ strTruthy g.winner = true) →
     (matchupDiffers b.c1 (confChampTarget (getPlayoffSeeds (b.state seeds)) b.afcDivs) ∨
      matchupDiffers b.c2 (confChampTarget (getPlayoffSeeds (b.state seeds)) b.nfcDivs)) →
      sbCleared (reseedPlayoffBracket (b.state seeds))) := by
  obtain ⟨hwcf, hdvf, hcff, hsbf⟩ := bracket_round_lists b hs
  obtain ⟨hafcw, hnfcw, hafcd, hnfcd⟩ := bracket_conf_lists b hs
  constructor
  · intro hwc hch
    have hwc1 := hwc b.wc1 (by simp)
    have hwc2 := hwc b.wc2 (by simp)
    have hwc3 := hwc b.wc3 (by simp)
    have hwc4 := hwc b.wc4 (by simp)
    have hwc5 := hwc b.wc5 (by simp)
    have hwc6 := hwc b.wc6 (by simp)
    have hwcgate : isRoundComplete [b.wc1, b.wc2, b.wc3, b.wc4, b.wc5, b.wc6] = true := by
      simp [isRoundComplete, hwc1.1, hwc1.2, hwc2.1, hwc2.2, hwc3.1, hwc3.2,
        hwc4.1, hwc4.2, hwc5.1, hwc5.2, hwc6.1, hwc6.2]
    have hS : downstreamCleared
        (reseedDivisionalStage (b.state seeds) (getPlayoffSeeds (b.state seeds))
          [b.wc1, b.wc2, b.wc3, b.wc4, b.wc5, b.wc6] [b.d1, b.d2, b.d3, b.d4]) := by
      unfold reseedDivisionalStage
      rw [hafcw, hnfcw]
      simp only [Bracket.afcWCs, Bracket.nfcWCs, List.all_cons, List.all_nil,
        hwc1.2, hwc2.2, hwc3.2, hwc4.2, hwc5.2, hwc6.2, Bool.and_self, if_true]
      simp only [List.getElem?_cons_zero, List.getElem?_cons_succ, applyDivisional]
      rcases hch with hch | hch | hch | hch
      · apply updateDivisionalGame_roundCleared
        apply updateDivisionalGame_roundCleared
        apply updateDivisionalGame_roundCleared
        exact updateDivisionalGame_establishes _ _ _ hch
      · apply updateDivisionalGame_roundCleared
        apply updateDivisionalGame_roundCleared
        exact updateDivisionalGame_establishes _ _ _ hch
      · apply updateDivisionalGame_roundCleared
        exact updateDivisionalGame_establishes _ _ _ hch
      · exact updateDivisionalGame_establishes _ _ _ hch
    unfold reseedPlayoffBracket
    rw [getGamesBySeason_bracket b seeds hs]
    simp only [hwcf, hdvf, hcff, hsbf, hwcgate, if_true]
    split
    · apply reseedSuperBowlStage_roundCleared
      split
      · apply reseedConferenceStage_roundCleared
        exact hS
      · exact hS
    · split
      · apply reseedConferenceStage_roundCleared
        exact hS
      · exact hS
  · intro hdv hch
    have hd1 := hdv b.d1 (by simp)
    have hd2 := hdv b.d2 (by simp)
    have hd3 := hdv b.d3 (by simp)
    have hd4 := hdv b.d4 (by simp)
    have hdvgate : isRoundComplete [b.d1, b.d2, b.d3, b.d4] = true := by
      simp [isRoundComplete, hd1.1, hd1.2, hd2.1, hd2.2, hd3.1, hd3.2, hd4.1, hd4.2]
    have hCS : ∀ s1 : SeasonState, sbCleared
        (reseedConferenceStage s1 (getPlayoffSeeds (b.state seeds))
          [b.d1, b.d2, b.d3, b.d4] [b.c1, b.c2]) := by
      intro s1
      unfold reseedConferenceStage
      rw [hafcd, hnfcd]
      simp only [Bracket.afcDivs, Bracket.nfcDivs, List.all_cons, List.all_nil,
        hd1.2, hd2.2, hd3.2, hd4.2, Bool.and_self, if_true]
      simp only [List.getElem?_cons_zero, List.getElem?_cons_succ, applyConference]
      rcases hch with hch | hch
      · apply updateConferenceGame_roundCleared
        exact updateConferenceGame_establishes _ _ _ hch
      · exact updateConferenceGame_establishes _ _ _ hch
    unfold reseedPlayoffBracket
    rw [getGamesBySeason_bracket b seeds hs]
    simp only [hwcf, hdvf, hcff, hsbf, hdvgate, if_true]
    split
    · apply reseedSuperBowlStage_roundCleared
      exact hCS _
    · exact hCS _

/-! ## Frame machinery: wild card rows are never written

Every update a re-seeding run performs targets either an id fetched from the
divisional/conference/Super-Bowl filters or one of the rounds `conference` /
`super_bowl`.  With unique ids (the store's primary key), no wild card row is ever
touched. -/

/-- The rows of `s` agree with those of `s0` (same seeds, same length, and at every
position holding a round-`r` game whose id clashes with no row of another round in
`s0`, the identical row).  Instantiated at `r = wild_card` for claim C10 and at
`r = divisional` for claim C7. -/
def frameRowsSame (r : Round) (s0 s : SeasonState) : Prop :=
  s.seeds = s0.seeds ∧ s.games.length = s0.games.length ∧
  ∀ (i : Nat) (g : Game), s0.games[i]? = some g → g.round = r →
    (∀ u ∈ s0.games, g.id = u.id → u.round = r) → s.games[i]? = some g

/-- A divisional matchup-update whose target id belongs to a non-wild-card row of
`s0` leaves the protected wild card rows alone. -/
theorem updateDivisionalGame_frameRowsSame (r : Round) (hr1 : r ≠ .conference)
    (hr2 : r ≠ .super_bowl) (s0 s : SeasonState) (t : Game)
    (mt : MatchupTarget) (h : frameRowsSame r s0 s)
    (ht : ∃ v ∈ s0.games, v.id = t.id ∧ v.round ≠ r) :
    frameRowsSame r s0 (updateDivisionalGame s t mt) := by
  obtain ⟨v, hv, hvid, hvr⟩ := ht
  obtain ⟨hseeds, hlen, hrows⟩ := h
  have hgne : ∀ g : Game, g.round = r →
      (∀ u ∈ s0.games, g.id = u.id → u.round = r) → ¬g.id = t.id := by
    intro g hwc hnc hgid
    exact hvr (hnc v hv (hgid.trans hvid.symm))
  unfold updateDivisionalGame updateById updateByRound
  dsimp only
  split
  · refine ⟨hseeds, by simpa using hlen, ?_⟩
    intro i g hsome hwc hnc
    have hi := hrows i g hsome hwc hnc
    simp only [List.getElem?_map, hi, Option.map_some']
    rw [if_neg (hgne g hwc hnc)]
    rw [if_neg (show ¬g.round = Round.conference by rw [hwc]; exact hr1)]
    rw [if_neg (show ¬g.round = Round.super_bowl by rw [hwc]; exact hr2)]
  · split
    · refine ⟨hseeds, by simpa using hlen, ?_⟩
      intro i g hsome hwc hnc
      have hi := hrows i g hsome hwc hnc
      simp only [List.getElem?_map, hi, Option.map_some']
      rw [if_neg (hgne g hwc hnc)]
    · exact ⟨hseeds, hlen, hrows⟩

/-- Conference version of `updateDivisionalGame_wcRowsSame`. -/
theorem updateConferenceGame_frameRowsSame (r : Round) (hr1 : r ≠ .conference)
    (hr2 : r ≠ .super_bowl) (s0 s : SeasonState) (t : Game)
    (mt : MatchupTarget) (h : frameRowsSame r s0 s)
    (ht : ∃ v ∈ s0.games, v.id = t.id ∧ v.round ≠ r) :
    frameRowsSame r s0 (updateConferenceGame s t mt) := by
  obtain ⟨v, hv, hvid, hvr⟩ := ht
  obtain ⟨hseeds, hlen, hrows⟩ := h
  have hgne : ∀ g : Game, g.round = r →
      (∀ u ∈ s0.games, g.id = u.id → u.round = r) → ¬g.id = t.id := by
    intro g hwc hnc hgid
    exact hvr (hnc v hv (hgid.trans hvid.symm))
  unfold updateConferenceGame updateById updateByRound
  dsimp only
  split
  · refine ⟨hseeds, by simpa using hlen, ?_⟩
    intro i g hsome hwc hnc
    have hi := hrows i g hsome hwc hnc
    simp only [List.getElem?_map, hi, Option.map_some']
    rw [if_neg (hgne g hwc hnc)]
    rw [if_neg (show ¬g.round = Round.super_bowl by rw [hwc]; exact hr2)]
  · split
    · refine ⟨hseeds, by simpa using hlen, ?_⟩
      intro i g hsome hwc hnc
      have hi := hrows i g hsome hwc hnc
      simp only [List.getElem?_map, hi, Option.map_some']
      rw [if_neg (hgne g hwc hnc)]
    · exact ⟨hseeds, hlen, hrows⟩

/-- Super Bowl version of `updateDivisionalGame_wcRowsSame`. -/
theorem updateSuperBowlGame_frameRowsSame (r : Round) (hr1 : r ≠ .conference)
    (hr2 : r ≠ .super_bowl) (s0 s : SeasonState) (t : Game)
    (mt : MatchupTarget) (h : frameRowsSame r s0 s)
    (ht : ∃ v ∈ s0.games, v.id = t.id ∧ v.round ≠ r) :
    frameRowsSame r s0 (updateSuperBowlGame s t mt) := by
  obtain ⟨v, hv, hvid, hvr⟩ := ht
  obtain ⟨hseeds, hlen, hrows⟩ := h
  have hgne : ∀ g : Game, g.round = r →
      (∀ u ∈ s0.games, g.id = u.id → u.round = r) → ¬g.id = t.id := by
    intro g hwc hnc hgid
    exact hvr (hnc v hv (hgid.trans hvid.symm))
  unfold updateSuperBowlGame updateById
  dsimp only
  split
  · refine ⟨hseeds, by simpa using hlen, ?_⟩
    intro i g hsome hwc hnc
    have hi := hrows i g hsome hwc hnc
    simp only [List.getElem?_map, hi, Option.map_some']
    rw [if_neg (hgne g hwc hnc)]
  · split
    · refine ⟨hseeds, by simpa using hlen, ?_⟩
      intro i g hsome hwc hnc
      have hi := hrows i g hsome hwc hnc
      simp only [List.getElem?_map, hi, Option.map_some']
      rw [if_neg (hgne g hwc hnc)]
    · exact ⟨hseeds, hlen, hrows⟩

/-- `applyDivisional` version: the optional target comes with the id guarantee. -/
theorem applyDivisional_frameRowsSame (r : Round) (hr1 : r ≠ .conference)
    (hr2 : r ≠ .super_bowl) (s0 s : SeasonState) (t? : Option Game)
    (mt : MatchupTarget) (h : frameRowsSame r s0 s)
    (ht : ∀ t, t? = some t → ∃ v ∈ s0.games, v.id = t.id ∧ v.round ≠ r) :
    frameRowsSame r s0 (applyDivisional s t? mt) := by
  cases ht? : t? with
  | none => exact h
  | some t => exact updateDivisionalGame_frameRowsSame r hr1 hr2 s0 s t mt h (ht t ht?)

/-- `applyConference` version. -/
theorem applyConference_frameRowsSame (r : Round) (hr1 : r ≠ .conference)
    (hr2 : r ≠ .super_bowl) (s0 s : SeasonState) (t? : Option Game)
    (mt : MatchupTarget) (h : frameRowsSame r s0 s)
    (ht : ∀ t, t? = some t → ∃ v ∈ s0.games, v.id = t.id ∧ v.round ≠ r) :
    frameRowsSame r s0 (applyConference s t? mt) := by
  cases ht? : t? with
  | none => exact h
  | some t => exact updateConferenceGame_frameRowsSame r hr1 hr2 s0 s t mt h (ht t ht?)

/-- The divisional stage only writes rows fetched from the divisional list. -/
theorem reseedDivisionalStage_frameRowsSame (r : Round) (hr1 : r ≠ .conference)
    (hr2 : r ≠ .super_bowl) (s0 s : SeasonState)
    (seeds : List PlayoffSeed) (wildCardGames divisionalGames : List Game)
    (h : frameRowsSame r s0 s)
    (hdivs : ∀ u ∈ divisionalGames, ∃ v ∈ s0.games, v.id = u.id ∧ v.round ≠ r) :
    frameRowsSame r s0 (reseedDivisionalStage s seeds wildCardGames divisionalGames) := by
  have hslot : ∀ (i : Nat) (t : Game), divisionalGames[i]? = some t →
      ∃ v ∈ s0.games, v.id = t.id ∧ v.round ≠ r :=
    fun i t hit => hdivs t (List.getElem?_mem hit)
  unfold reseedDivisionalStage
  dsimp only
  split
  · apply applyDivisional_frameRowsSame r hr1 hr2
    · apply applyDivisional_frameRowsSame r hr1 hr2
      · split
        · apply applyDivisional_frameRowsSame r hr1 hr2
          · apply applyDivisional_frameRowsSame r hr1 hr2
            · exact h
            · exact hslot 0
          · exact hslot 1
        · exact h
      · exact hslot 2
    · exact hslot 3
  · split
    · apply applyDivisional_frameRowsSame r hr1 hr2
      · apply applyDivisional_frameRowsSame r hr1 hr2
        · exact h
        · exact hslot 0
      · exact hslot 1
    · exact h

/-- The conference stage only writes rows fetched from the conference list. -/
theorem reseedConferenceStage_frameRowsSame (r : Round) (hr1 : r ≠ .conference)
    (hr2 : r ≠ .super_bowl) (s0 s : SeasonState)
    (seeds : List PlayoffSeed) (divisionalGames conferenceGames : List Game)
    (h : frameRowsSame r s0 s)
    (hconfs : ∀ u ∈ conferenceGames, ∃ v ∈ s0.games, v.id = u.id ∧ v.round ≠ r) :
    frameRowsSame r s0 (reseedConferenceStage s seeds divisionalGames conferenceGames) := by
  have hslot : ∀ (i : Nat) (t : Game), conferenceGames[i]? = some t →
      ∃ v ∈ s0.games, v.id = t.id ∧ v.round ≠ r :=
    fun i t hit => hconfs t (List.getElem?_mem hit)
  unfold reseedConferenceStage
  dsimp only
  split
  · apply applyConference_frameRowsSame r hr1 hr2
    · split
      · apply applyConference_frameRowsSame r hr1 hr2
        · exact h
        · exact hslot 0
      · exact h
    · exact hslot 1
  · split
    · apply applyConference_frameRowsSame r hr1 hr2
      · exact h
      · exact hslot 0
    · exact h

/-- The Super Bowl stage only writes the fetched Super Bowl row. -/
theorem reseedSuperBowlStage_frameRowsSame (r : Round) (hr1 : r ≠ .conference)
    (hr2 : r ≠ .super_bowl) (s0 s : SeasonState)
    (seeds : List PlayoffSeed) (conferenceGames : List Game) (sb : Game)
    (h : frameRowsSame r s0 s)
    (hsb : ∃ v ∈ s0.games, v.id = sb.id ∧ v.round ≠ r) :
    frameRowsSame r s0 (reseedSuperBowlStage s seeds conferenceGames sb) := by
  unfold reseedSuperBowlStage
  exact updateSuperBowlGame_frameRowsSame r hr1 hr2 s0 s sb _ h hsb

/-- A full re-seeding run never writes a wild card row (relative to unique ids). -/
theorem reseedPlayoffBracket_wcRowsSame (s : SeasonState) :
    frameRowsSame .wild_card s (reseedPlayoffBracket s) := by
  have hperm : ∀ u ∈ getGamesBySeason s, u ∈ s.games := by
    intro u hu
    exact (List.perm_insertionSort gameLe s.games).mem_iff.mp hu
  have hdivs : ∀ u ∈ (getGamesBySeason s).filter (fun g => g.round == Round.divisional),
      ∃ v ∈ s.games, v.id = u.id ∧ v.round ≠ Round.wild_card := by
    intro u hu
    have hmem := hperm u (List.mem_of_mem_filter hu)
    have hr : u.round = Round.divisional := by
      have := List.of_mem_filter hu
      simpa using this
    exact ⟨u, hmem, rfl, by rw [hr]; simp⟩
  have hconfs : ∀ u ∈ (getGamesBySeason s).filter (fun g => g.round == Round.conference),
      ∃ v ∈ s.games, v.id = u.id ∧ v.round ≠ Round.wild_card := by
    intro u hu
    have hmem := hperm u (List.mem_of_mem_filter hu)
    have hr : u.round = Round.conference := by
      have := List.of_mem_filter hu
      simpa using this
    exact ⟨u, hmem, rfl, by rw [hr]; simp⟩
  have h0 : frameRowsSame .wild_card s s := ⟨rfl, rfl, fun _ _ hg _ _ => hg⟩
  unfold reseedPlayoffBracket
  dsimp only
  split
  · split
    case h_1 sb hsb =>
      apply reseedSuperBowlStage_frameRowsSame Round.wild_card (by simp) (by simp)
      · split
        · apply reseedConferenceStage_frameRowsSame Round.wild_card (by simp) (by simp)
          · split
            · exact reseedDivisionalStage_frameRowsSame Round.wild_card (by simp) (by simp) s s _ _ _ h0 hdivs
            · exact h0
          · exact hconfs
        · split
          · exact reseedDivisionalStage_frameRowsSame Round.wild_card (by simp) (by simp) s s _ _ _ h0 hdivs
          · exact h0
      · have hmem := hperm sb (List.mem_of_find?_eq_some hsb)
        have hr : sb.round = Round.super_bowl := by
          have := List.find?_some hsb
          simpa using this
        exact ⟨sb, hmem, rfl, by rw [hr]; simp⟩
    case h_2 =>
      split
      · apply reseedConferenceStage_frameRowsSame Round.wild_card (by simp) (by simp)
        · split
          · exact reseedDivisionalStage_frameRowsSame Round.wild_card (by simp) (by simp) s s _ _ _ h0 hdivs
          · exact h0
        · exact hconfs
      · split
        · exact reseedDivisionalStage_frameRowsSame Round.wild_card (by simp) (by simp) s s _ _ _ h0 hdivs
        · exact h0
  · split
    · apply reseedConferenceStage_frameRowsSame Round.wild_card (by simp) (by simp)
      · split
        · exact reseedDivisionalStage_frameRowsSame Round.wild_card (by simp) (by simp) s s _ _ _ h0 hdivs
        · exact h0
      · exact hconfs
    · split
      · exact reseedDivisionalStage_frameRowsSame Round.wild_card (by simp) (by simp) s s _ _ _ h0 hdivs
      · exact h0

/-- C10: for every season state with unique game ids, a re-seeding run leaves every
wild card row completely unchanged — same seeds, same number of rows, and each
position holding a wild card game still holds the identical row (teams, seed fields,
winner, completed and isActualMatchup included); the engine only ever writes
divisional, conference and Super Bowl rows. -/
theorem c10_wildcard_frame (s : SeasonState)
    (hids : (s.games.map Game.id).Nodup) :
    (reseedPlayoffBracket s).seeds = s.seeds ∧
    (reseedPlayoffBracket s).games.length = s.games.length ∧
    ∀ (i : Nat) (g : Game), s.games[i]? = some g → g.round = .wild_card →
      (reseedPlayoffBracket s).games[i]? = some g := by
  obtain ⟨hseeds, hlen, hrows⟩ := reseedPlayoffBracket_wcRowsSame s
  refine ⟨hseeds, hlen, ?_⟩
  intro i g hi hwc
  apply hrows i g hi hwc
  intro u hu hid
  have hg : g ∈ s.games := List.getElem?_mem hi
  have hgu := List.inj_on_of_nodup_map hids hg hu hid
  rw [← hgu]
  exact hwc

/-- C7: if the wild card round of a standard bracket is not fully complete (some of
the 6 games lacks `completed` with a JS-truthy winner), a re-seeding run changes no
divisional row in either conference: every divisional slot keeps exactly its stored
row (teams, seed fields, winner, completed and isActualMatchup — in particular
placeholders keep their TBD teams, null seeds and isActualMatchup = false). -/
theorem c7_partial_wildcard_frame (b : Bracket) (seeds : List PlayoffSeed)
    (hs : b.StdShape)
    (hpart : ∃ g ∈ [b.wc1, b.wc2, b.wc3, b.wc4, b.wc5, b.wc6],
      ¬(g.completed = true ∧ strTruthy g.winner = true)) :
    (reseedPlayoffBracket (b.state seeds)).games[2]? = some b.d1 ∧
    (reseedPlayoffBracket (b.state seeds)).games[3]? = some b.d2 ∧
    (reseedPlayoffBracket (b.state seeds)).games[4]? = some b.d3 ∧
    (reseedPlayoffBracket (b.state seeds)).games[5]? = some b.d4 := by
  obtain ⟨hwcf, hdvf, hcff, hsbf⟩ := bracket_round_lists b hs
  have hgate : isRoundComplete [b.wc1, b.wc2, b.wc3, b.wc4, b.wc5, b.wc6] = false := by
    obtain ⟨g, hmem, hng⟩ := hpart
    unfold isRoundComplete
    rw [Bool.and_eq_false_iff]
    right
    rw [List.all_eq_false]
    refine ⟨g, hmem, ?_⟩
    intro hg
    rw [Bool.and_eq_true] at hg
    exact hng ⟨hg.1, hg.2⟩
  have hframe : frameRowsSame .divisional (b.state seeds) (reseedPlayoffBracket (b.state seeds)) := by
    have h0 : frameRowsSame .divisional (b.state seeds) (b.state seeds) :=
      ⟨rfl, rfl, fun _ _ hg _ _ => hg⟩
    have hconfs : ∀ u ∈ [b.c1, b.c2],
        ∃ v ∈ (b.state seeds).games, v.id = u.id ∧ v.round ≠ Round.divisional := by
      intro u hu
      obtain ⟨h1, h2, h3, h4, h5, h6, h7, h8, h9, h10, h11, h12, h13, h14, h15, h16,
        h17, h18, h19, h20, h21, h22, h23, h24, h25, h26, h27, h28, h29, h30,
        h31, h32, h33, h34, h35, h36, h37, h38, h39⟩ := hs
      simp only [List.mem_cons, List.not_mem_nil, or_false] at hu
      rcases hu with rfl | rfl
      · exact ⟨b.c1, by simp [Bracket.state, Bracket.rows], rfl, by rw [h32]; simp⟩
      · exact ⟨b.c2, by simp [Bracket.state, Bracket.rows], rfl, by rw [h35]; simp⟩
    have hsb : ∃ v ∈ (b.state seeds).games, v.id = b.sb.id ∧ v.round ≠ Round.divisional := by
      obtain ⟨h1, h2, h3, h4, h5, h6, h7, h8, h9, h10, h11, h12, h13, h14, h15, h16,
        h17, h18, h19, h20, h21, h22, h23, h24, h25, h26, h27, h28, h29, h30,
        h31, h32, h33, h34, h35, h36, h37, h38, h39⟩ := hs
      exact ⟨b.sb, by simp [Bracket.state, Bracket.rows], rfl, by rw [h38]; simp⟩
    unfold reseedPlayoffBracket
    rw [getGamesBySeason_bracket b seeds hs]
    simp only [hwcf, hdvf, hcff, hsbf, hgate, if_false, Bool.false_eq_true]
    split
    · apply reseedSuperBowlStage_frameRowsSame Round.divisional (by simp) (by simp)
      · split
        · apply reseedConferenceStage_frameRowsSame Round.divisional (by simp) (by simp)
          · exact h0
          · exact hconfs
        · exact h0
      · exact hsb
    · split
      · apply reseedConferenceStage_frameRowsSame Round.divisional (by simp) (by simp)
        · exact h0
        · exact hconfs
      · exact h0
  obtain ⟨h1, h2, h3, h4, h5, h6, h7, h8, h9, h10, h11, h12, h13, h14, h15, h16,
    h17, h18, h19, h20, h21, h22, h23, h24, h25, h26, h27, h28, h29, h30,
    h31, h32, h33, h34, h35, h36, h37, h38, h39⟩ := hs
  have hnc : ∀ d : Game, d.id = 7 ∨ d.id = 8 ∨ d.id = 9 ∨ d.id = 10 →
      ∀ u ∈ (b.state seeds).games, d.id = u.id → u.round = Round.divisional := by
    intro d hd u hu hid
    simp only [Bracket.state, Bracket.rows, List.mem_cons, List.not_mem_nil, or_false] at hu
    rcases hu with rfl | rfl | rfl | rfl | rfl | rfl | rfl | rfl | rfl | rfl | rfl | rfl | rfl <;>
      first
      | exact h20
      | exact h23
      | exact h26
      | exact h29
      | (exfalso; omega)
  refine ⟨?_, ?_, ?_, ?_⟩
  · exact hframe.2.2 2 b.d1 (by simp [Bracket.state, Bracket.rows]) h20
      (hnc b.d1 (Or.inl h19) )
  · exact hframe.2.2 3 b.d2 (by simp [Bracket.state, Bracket.rows]) h23
      (hnc b.d2 (Or.inr (Or.inl h22)))
  · exact hframe.2.2 4 b.d3 (by simp [Bracket.state, Bracket.rows]) h26
      (hnc b.d3 (Or.inr (Or.inr (Or.inl h25))))
  · exact hframe.2.2 5 b.d4 (by simp [Bracket.state, Bracket.rows]) h29
      (hnc b.d4 (Or.inr (Or.inr (Or.inr h28))))

/-- The cascade branch of the divisional helper, as an explicit store transform. -/
theorem updateDivisionalGame_changed (s : SeasonState) (t : Game) (mt : MatchupTarget)
    (hch : matchupDiffers t mt) :
    updateDivisionalGame s t mt =
      ⟨updateByRound (updateByRound (updateById s.games t.id (fun g =>
          { g with team_home := mt.home, team_away := mt.away,
                   seed_home := mt.seedHome, seed_away := mt.seedAway,
                   is_actual_matchup := true, winner := none, completed := false }))
          .conference clearResult)
        .super_bowl clearResult, s.seeds⟩ := by
  unfold updateDivisionalGame
  rw [if_pos ((matchupChanged_eq t mt).mpr hch)]

/-- Slot-wise consistency of a stored divisional game with the recomputed target. -/
def Bracket.d1Consistent (b : Bracket) (seeds : List PlayoffSeed) : Prop :=
  b.d1.team_home = (confDivTargets (getPlayoffSeeds (b.state seeds)) .AFC b.afcWCs).1.home ∧
  b.d1.team_away = (confDivTargets (getPlayoffSeeds (b.state seeds)) .AFC b.afcWCs).1.away ∧
  b.d1.is_actual_matchup = true

/-- See `Bracket.d1Consistent`. -/
def Bracket.d2Consistent (b : Bracket) (seeds : List PlayoffSeed) : Prop :=
  b.d2.team_home = (confDivTargets (getPlayoffSeeds (b.state seeds)) .AFC b.afcWCs).2.home ∧
  b.d2.team_away = (confDivTargets (getPlayoffSeeds (b.state seeds)) .AFC b.afcWCs).2.away ∧
  b.d2.is_actual_matchup = true

/-- See `Bracket.d1Consistent`. -/
def Bracket.d3Consistent (b : Bracket) (seeds : List PlayoffSeed) : Prop :=
  b.d3.team_home = (confDivTargets (getPlayoffSeeds (b.state seeds)) .NFC b.nfcWCs).1.home ∧
  b.d3.team_away = (confDivTargets (getPlayoffSeeds (b.state seeds)) .NFC b.nfcWCs).1.away ∧
  b.d3.is_actual_matchup = true

/-- See `Bracket.d1Consistent`. -/
def Bracket.d4Consistent (b : Bracket) (seeds : List PlayoffSeed) : Prop :=
  b.d4.team_home = (confDivTargets (getPlayoffSeeds (b.state seeds)) .NFC b.nfcWCs).2.home ∧
  b.d4.team_away = (confDivTargets (getPlayoffSeeds (b.state seeds)) .NFC b.nfcWCs).2.away ∧
  b.d4.is_actual_matchup = true

/-- Consistency of the conference round and the Super Bowl with the stored (stale)
round winners, all marked actual. -/
def Bracket.ConsistentBelowDiv (b : Bracket) (seeds : List PlayoffSeed) : Prop :=
  b.c1.team_home = (confChampTarget (getPlayoffSeeds (b.state seeds)) b.afcDivs).home ∧
  b.c1.team_away = (confChampTarget (getPlayoffSeeds (b.state seeds)) b.afcDivs).away ∧
  b.c1.is_actual_matchup = true ∧
  b.c2.team_home = (confChampTarget (getPlayoffSeeds (b.state seeds)) b.nfcDivs).home ∧
  b.c2.team_away = (confChampTarget (getPlayoffSeeds (b.state seeds)) b.nfcDivs).away ∧
  b.c2.is_actual_matchup = true ∧
  b.sb.team_home = b.c1.winner.getD "" ∧
  b.sb.team_away = b.c2.winner.getD "" ∧
  b.sb.is_actual_matchup = true

instance (b : Bracket) (seeds : List PlayoffSeed) : Decidable (b.d1Consistent seeds) := by
  unfold Bracket.d1Consistent
  infer_instance

instance (b : Bracket) (seeds : List PlayoffSeed) : Decidable (b.d2Consistent seeds) := by
  unfold Bracket.d2Consistent
  infer_instance

instance (b : Bracket) (seeds : List PlayoffSeed) : Decidable (b.d3Consistent seeds) := by
  unfold Bracket.d3Consistent
  infer_instance

instance (b : Bracket) (seeds : List PlayoffSeed) : Decidable (b.d4Consistent seeds) := by
  unfold Bracket.d4Consistent
  infer_instance

instance (b : Bracket) (seeds : List PlayoffSeed) :
    Decidable (b.ConsistentBelowDiv seeds) := by
  unfold Bracket.ConsistentBelowDiv
  infer_instance

/-- C2 (amended): changing a decided wild card winner so that exactly one
divisional slot's recomputed matchup differs from the stored one (the other three
slots and the conference/Super-Bowl rows matching their recomputation from the stale
winners) makes the re-seeding run rewrite that one divisional game with the new
matchup and winner = null / completed = false, clear winner and completed on BOTH
conference-round games — the other conference's conference game included, contrary to
the original claim — and on the Super Bowl, while every wild card row and every other
divisional row (in particular all of the other conference's wild card and divisional
games, with their winners and completed flags) is left exactly unchanged; and the
winner-recording operation is exactly this run after the winner write. -/
theorem c2_cross_conference_clear (b : Bracket) (seeds : List PlayoffSeed)
    (hs : b.StdShape) (hd : b.Decided) :
    (matchupDiffers b.d1 (confDivTargets (getPlayoffSeeds (b.state seeds)) .AFC b.afcWCs).1 →
      b.d2Consistent seeds → b.d3Consistent seeds → b.d4Consistent seeds →
      b.ConsistentBelowDiv seeds →
      reseedPlayoffBracket (b.state seeds) =
        SeasonState.mk
          [clearResult b.c1, clearResult b.c2,
          { b.d1 with
            team_home := (confDivTargets (getPlayoffSeeds (b.state seeds)) .AFC b.afcWCs).1.home,
            team_away := (confDivTargets (getPlayoffSeeds (b.state seeds)) .AFC b.afcWCs).1.away,
            seed_home := (confDivTargets (getPlayoffSeeds (b.state seeds)) .AFC b.afcWCs).1.seedHome,
            seed_away := (confDivTargets (getPlayoffSeeds (b.state seeds)) .AFC b.afcWCs).1.seedAway,
            is_actual_matchup := true, winner := none, completed := false },
          b.d2,
          b.d3,
          b.d4,
          clearResult b.sb, b.wc1, b.wc2, b.wc3, b.wc4, b.wc5, b.wc6]
          seeds) ∧
    (matchupDiffers b.d2 (confDivTargets (getPlayoffSeeds (b.state seeds)) .AFC b.afcWCs).2 →
      b.d1Consistent seeds → b.d3Consistent seeds → b.d4Consistent seeds →
      b.ConsistentBelowDiv seeds →
      reseedPlayoffBracket (b.state seeds) =
        SeasonState.mk
          [clearResult b.c1, clearResult b.c2,
          b.d1,
          { b.d2 with
            team_home := (confDivTargets (getPlayoffSeeds (b.state seeds)) .AFC b.afcWCs).2.home,
            team_away := (confDivTargets (getPlayoffSeeds (b.state seeds)) .AFC b.afcWCs).2.away,
            seed_home := (confDivTargets (getPlayoffSeeds (b.state seeds)) .AFC b.afcWCs).2.seedHome,
            seed_away := (confDivTargets (getPlayoffSeeds (b.state seeds)) .AFC b.afcWCs).2.seedAway,
            is_actual_matchup := true, winner := none, completed := false },
          b.d3,
          b.d4,
          clearResult b.sb, b.wc1, b.wc2, b.wc3, b.wc4, b.wc5, b.wc6]
          seeds) ∧
    (matchupDiffers b.d3 (confDivTargets (getPlayoffSeeds (b.state seeds)) .NFC b.nfcWCs).1 →
      b.d1Consistent seeds → b.d2Consistent seeds → b.d4Consistent seeds →
      b.ConsistentBelowDiv seeds →
      reseedPlayoffBracket (b.state seeds) =
        SeasonState.mk
          [clearResult b.c1, clearResult b.c2,
          b.d1,
          b.d2,
          { b.d3 with
            team_home := (confDivTargets (getPlayoffSeeds (b.state seeds)) .NFC b.nfcWCs).1.home,
            team_away := (confDivTargets (getPlayoffSeeds (b.state seeds)) .NFC b.nfcWCs).1.away,
            seed_home := (confDivTargets (getPlayoffSeeds (b.state seeds)) .NFC b.nfcWCs).1.seedHome,
            seed_away := (confDivTargets (getPlayoffSeeds (b.state seeds)) .NFC b.nfcWCs).1.seedAway,
            is_actual_matchup := true, winner := none, completed := false },
          b.d4,
          clearResult b.sb, b.wc1, b.wc2, b.wc3, b.wc4, b.wc5, b.wc6]
          seeds) ∧
    (matchupDiffers b.d4 (confDivTargets (getPlayoffSeeds (b.state seeds)) .NFC b.nfcWCs).2 →
      b.d1Consistent seeds → b.d2Consistent seeds → b.d3Consistent seeds →
      b.ConsistentBelowDiv seeds →
      reseedPlayoffBracket (b.state seeds) =
        SeasonState.mk
          [clearResult b.c1, clearResult b.c2,
          b.d1,
          b.d2,
          b.d3,
          { b.d4 with
            team_home := (confDivTargets (getPlayoffSeeds (b.state seeds)) .NFC b.nfcWCs).2.home,
            team_away := (confDivTargets (getPlayoffSeeds (b.state seeds)) .NFC b.nfcWCs).2.away,
            seed_home := (confDivTargets (getPlayoffSeeds (b.state seeds)) .NFC b.nfcWCs).2.seedHome,
            seed_away := (confDivTargets (getPlayoffSeeds (b.state seeds)) .NFC b.nfcWCs).2.seedAway,
            is_actual_matchup := true, winner := none, completed := false },
          clearResult b.sb, b.wc1, b.wc2, b.wc3, b.wc4, b.wc5, b.wc6]
          seeds) ∧
    (∀ (s : SeasonState) (gid : Nat) (w : String),
      (getGameById s gid).isSome = true →
      updateGameWinner s gid w =
        .ok (reseedPlayoffBracket ⟨setWinnerRows s.games gid w, s.seeds⟩)) := by
  obtain ⟨h1, h2, h3, h4, h5, h6, h7, h8, h9, h10, h11, h12, h13, h14, h15, h16,
    h17, h18, h19, h20, h21, h22, h23, h24, h25, h26, h27, h28, h29, h30,
    h31, h32, h33, h34, h35, h36, h37, h38, h39⟩ := hs
  have hs' : b.StdShape := by
    unfold Bracket.StdShape
    exact ⟨h1, h2, h3, h4, h5, h6, h7, h8, h9, h10, h11, h12, h13, h14, h15, h16,
      h17, h18, h19, h20, h21, h22, h23, h24, h25, h26, h27, h28, h29, h30,
      h31, h32, h33, h34, h35, h36, h37, h38, h39⟩
  obtain ⟨hafcw, hnfcw, hafcd, hnfcd⟩ := bracket_conf_lists b hs'
  have hwc1 := hd b.wc1 (by simp [Bracket.rows])
  have hwc2 := hd b.wc2 (by simp [Bracket.rows])
  have hwc3 := hd b.wc3 (by simp [Bracket.rows])
  have hwc4 := hd b.wc4 (by simp [Bracket.rows])
  have hwc5 := hd b.wc5 (by simp [Bracket.rows])
  have hwc6 := hd b.wc6 (by simp [Bracket.rows])
  have hgd1 := hd b.d1 (by simp [Bracket.rows])
  have hgd2 := hd b.d2 (by simp [Bracket.rows])
  have hgd3 := hd b.d3 (by simp [Bracket.rows])
  have hgd4 := hd b.d4 (by simp [Bracket.rows])
  refine ⟨?_, ?_, ?_, ?_, ?_⟩
  · intro hch hA hB hC hbel
    simp only [Bracket.afcWCs, Bracket.nfcWCs, Bracket.afcDivs, Bracket.nfcDivs,
      Bracket.d1Consistent, Bracket.d2Consistent, Bracket.d3Consistent,
      Bracket.d4Consistent, Bracket.ConsistentBelowDiv] at hA hB hC hbel hch ⊢
    obtain ⟨kAa, kAb, kAc⟩ := hA
    obtain ⟨kBa, kBb, kBc⟩ := hB
    obtain ⟨kCa, kCb, kCc⟩ := hC
    obtain ⟨c1a, c1b, c1c, c2a, c2b, c2c, sba, sbb, sbc⟩ := hbel
    rw [reseedPlayoffBracket_decided b seeds hs' hd]
    unfold reseedDivisionalStage
    rw [hafcw, hnfcw]
    simp only [Bracket.afcWCs, Bracket.nfcWCs, List.all_cons, List.all_nil,
      hwc1.2, hwc2.2, hwc3.2, hwc4.2, hwc5.2, hwc6.2, Bool.and_self, if_true]
    simp only [List.getElem?_cons_zero, List.getElem?_cons_succ, applyDivisional]
    rw [updateDivisionalGame_changed _ _ _ hch]
    rw [updateDivisionalGame_noop _ _ _ kAa kAb kAc]
    rw [updateDivisionalGame_noop _ _ _ kBa kBb kBc]
    rw [updateDivisionalGame_noop _ _ _ kCa kCb kCc]
    unfold reseedConferenceStage
    rw [hafcd, hnfcd]
    simp only [Bracket.afcDivs, Bracket.nfcDivs, List.all_cons, List.all_nil,
      hgd1.2, hgd2.2, hgd3.2, hgd4.2, Bool.and_self, if_true]
    simp only [List.getElem?_cons_zero, List.getElem?_cons_succ, applyConference]
    rw [updateConferenceGame_noop _ _ _ c1a c1b c1c]
    rw [updateConferenceGame_noop _ _ _ c2a c2b c2c]
    unfold reseedSuperBowlStage
    simp only [List.getElem?_cons_zero, List.getElem?_cons_succ, Option.bind_some]
    rw [updateSuperBowlGame_noop _ _ _ sba sbb sbc]
    simp [Bracket.state, Bracket.rows, updateById, updateByRound, clearResult,
      h1, h4, h7, h10, h13, h16, h19, h22, h25, h28, h31, h34, h37,
      h2, h5, h8, h11, h14, h17, h20, h23, h26, h29, h32, h35, h38]
  · intro hch hA hB hC hbel
    simp only [Bracket.afcWCs, Bracket.nfcWCs, Bracket.afcDivs, Bracket.nfcDivs,
      Bracket.d1Consistent, Bracket.d2Consistent, Bracket.d3Consistent,
      Bracket.d4Consistent, Bracket.ConsistentBelowDiv] at hA hB hC hbel hch ⊢
    obtain ⟨kAa, kAb, kAc⟩ := hA
    obtain ⟨kBa, kBb, kBc⟩ := hB
    obtain ⟨kCa, kCb, kCc⟩ := hC
    obtain ⟨c1a, c1b, c1c, c2a, c2b, c2c, sba, sbb, sbc⟩ := hbel
    rw [reseedPlayoffBracket_decided b seeds hs' hd]
    unfold reseedDivisionalStage
    rw [hafcw, hnfcw]
    simp only [Bracket.afcWCs, Bracket.nfcWCs, List.all_cons, List.all_nil,
      hwc1.2, hwc2.2, hwc3.2, hwc4.2, hwc5.2, hwc6.2, Bool.and_self, if_true]
    simp only [List.getElem?_cons_zero, List.getElem?_cons_succ, applyDivisional]
    rw [updateDivisionalGame_noop _ _ _ kAa kAb kAc]
    rw [updateDivisionalGame_changed _ _ _ hch]
    rw [updateDivisionalGame_noop _ _ _ kBa kBb kBc]
    rw [updateDivisionalGame_noop _ _ _ kCa kCb kCc]
    unfold reseedConferenceStage
    rw [hafcd, hnfcd]
    simp only [Bracket.afcDivs, Bracket.nfcDivs, List.all_cons, List.all_nil,
      hgd1.2, hgd2.2, hgd3.2, hgd4.2, Bool.and_self, if_true]
    simp only [List.getElem?_cons_zero, List.getElem?_cons_succ, applyConference]
    rw [updateConferenceGame_noop _ _ _ c1a c1b c1c]
    rw [updateConferenceGame_noop _ _ _ c2a c2b c2c]
    unfold reseedSuperBowlStage
    simp only [List.getElem?_cons_zero, List.getElem?_cons_succ, Option.bind_some]
    rw [updateSuperBowlGame_noop _ _ _ sba sbb sbc]
    simp [Bracket.state, Bracket.rows, updateById, updateByRound, clearResult,
      h1, h4, h7, h10, h13, h16, h19, h22, h25, h28, h31, h34, h37,
      h2, h5, h8, h11, h14, h17, h20, h23, h26, h29, h32, h35, h38]
  · intro hch hA hB hC hbel
    simp only [Bracket.afcWCs, Bracket.nfcWCs, Bracket.afcDivs, Bracket.nfcDivs,
      Bracket.d1Consistent, Bracket.d2Consistent, Bracket.d3Consistent,
      Bracket.d4Consistent, Bracket.ConsistentBelowDiv] at hA hB hC hbel hch ⊢
    obtain ⟨kAa, kAb, kAc⟩ := hA
    obtain ⟨kBa, kBb, kBc⟩ := hB
    obtain ⟨kCa, kCb, kCc⟩ := hC
    obtain ⟨c1a, c1b, c1c, c2a, c2b, c2c, sba, sbb, sbc⟩ := hbel
    rw [reseedPlayoffBracket_decided b seeds hs' hd]
    unfold reseedDivisionalStage
    rw [hafcw, hnfcw]
    simp only [Bracket.afcWCs, Bracket.nfcWCs, List.all_cons, List.all_nil,
      hwc1.2, hwc2.2, hwc3.2, hwc4.2, hwc5.2, hwc6.2, Bool.and_self, if_true]
    simp only [List.getElem?_cons_zero, List.getElem?_cons_succ, applyDivisional]
    rw [updateDivisionalGame_noop _ _ _ kAa kAb kAc]
    rw [updateDivisionalGame_noop _ _ _ kBa kBb kBc]
    rw [updateDivisionalGame_changed _ _ _ hch]
    rw [updateDivisionalGame_noop _ _ _ kCa kCb kCc]
    unfold reseedConferenceStage
    rw [hafcd, hnfcd]
    simp only [Bracket.afcDivs, Bracket.nfcDivs, List.all_cons, List.all_nil,
      hgd1.2, hgd2.2, hgd3.2, hgd4.2, Bool.and_self, if_true]
    simp only [List.getElem?_cons_zero, List.getElem?_cons_succ, applyConference]
    rw [updateConferenceGame_noop _ _ _ c1a c1b c1c]
    rw [updateConferenceGame_noop _ _ _ c2a c2b c2c]
    unfold reseedSuperBowlStage
    simp only [List.getElem?_cons_zero, List.getElem?_cons_succ, Option.bind_some]
    rw [updateSuperBowlGame_noop _ _ _ sba sbb sbc]
    simp [Bracket.state, Bracket.rows, updateById, updateByRound, clearResult,
      h1, h4, h7, h10, h13, h16, h19, h22, h25, h28, h31, h34, h37,
      h2, h5, h8, h11, h14, h17, h20, h23, h26, h29, h32, h35, h38]
  · intro hch hA hB hC hbel
    simp only [Bracket.afcWCs, Bracket.nfcWCs, Bracket.afcDivs, Bracket.nfcDivs,
      Bracket.d1Consistent, Bracket.d2Consistent, Bracket.d3Consistent,
      Bracket.d4Consistent, Bracket.ConsistentBelowDiv] at hA hB hC hbel hch ⊢
    obtain ⟨kAa, kAb, kAc⟩ := hA
    obtain ⟨kBa, kBb, kBc⟩ := hB
    obtain ⟨kCa, kCb, kCc⟩ := hC
    obtain ⟨c1a, c1b, c1c, c2a, c2b, c2c, sba, sbb, sbc⟩ := hbel
    rw [reseedPlayoffBracket_decided b seeds hs' hd]
    unfold reseedDivisionalStage
    rw [hafcw, hnfcw]
    simp only [Bracket.afcWCs, Bracket.nfcWCs, List.all_cons, List.all_nil,
      hwc1.2, hwc2.2, hwc3.2, hwc4.2, hwc5.2, hwc6.2, Bool.and_self, if_true]
    simp only [List.getElem?_cons_zero, List.getElem?_cons_succ, applyDivisional]
    rw [updateDivisionalGame_noop _ _ _ kAa kAb kAc]
    rw [updateDivisionalGame_noop _ _ _ kBa kBb kBc]
    rw [updateDivisionalGame_noop _ _ _ kCa kCb kCc]
    rw [updateDivisionalGame_changed _ _ _ hch]
    unfold reseedConferenceStage
    rw [hafcd, hnfcd]
    simp only [Bracket.afcDivs, Bracket.nfcDivs, List.all_cons, List.all_nil,
      hgd1.2, hgd2.2, hgd3.2, hgd4.2, Bool.and_self, if_true]
    simp only [List.getElem?_cons_zero, List.getElem?_cons_succ, applyConference]
    rw [updateConferenceGame_noop _ _ _ c1a c1b c1c]
    rw [updateConferenceGame_noop _ _ _ c2a c2b c2c]
    unfold reseedSuperBowlStage
    simp only [List.getElem?_cons_zero, List.getElem?_cons_succ, Option.bind_some]
    rw [updateSuperBowlGame_noop _ _ _ sba sbb sbc]
    simp [Bracket.state, Bracket.rows, updateById, updateByRound, clearResult,
      h1, h4, h7, h10, h13, h16, h19, h22, h25, h28, h31, h34, h37,
      h2, h5, h8, h11, h14, h17, h20, h23, h26, h29, h32, h35, h38]
  · intro s gid w hex
    obtain ⟨g0, hg0⟩ := Option.isSome_iff_exists.mp hex
    unfold updateGameWinner
    rw [hg0]

/-! ## C4 machinery: what the divisional stage writes -/

instance : IsTotal TeamSeed (fun a b => a.seed ≤ b.seed) :=
  ⟨fun a b => le_total a.seed b.seed⟩

instance : IsTrans TeamSeed (fun a b => a.seed ≤ b.seed) :=
  ⟨fun _ _ _ h1 h2 => le_trans h1 h2⟩

/-- A divisional matchup-update leaves a row at any position untouched when the row
has a different id and is in neither cascade round. -/
theorem updateDivisionalGame_preserves_row (s : SeasonState) (t : Game)
    (mt : MatchupTarget) (i : Nat) (g : Game)
    (hrow : s.games[i]? = some g) (hid : ¬g.id = t.id)
    (hr1 : ¬g.round = Round.conference) (hr2 : ¬g.round = Round.super_bowl) :
    (updateDivisionalGame s t mt).games[i]? = some g := by
  unfold updateDivisionalGame updateById updateByRound
  dsimp only
  split
  · simp only [List.map_map, List.getElem?_map, hrow, Option.map_some', Function.comp]
    rw [if_neg hid, if_neg hr1, if_neg hr2]
  · split
    · simp only [List.getElem?_map, hrow, Option.map_some']
      rw [if_neg hid]
    · exact hrow

/-- Conference version: safe rows have a different id and are not the Super Bowl. -/
theorem updateConferenceGame_preserves_row (s : SeasonState) (t : Game)
    (mt : MatchupTarget) (i : Nat) (g : Game)
    (hrow : s.games[i]? = some g) (hid : ¬g.id = t.id)
    (hr2 : ¬g.round = Round.super_bowl) :
    (updateConferenceGame s t mt).games[i]? = some g := by
  unfold updateConferenceGame updateById updateByRound
  dsimp only
  split
  · simp only [List.map_map, List.getElem?_map, hrow, Option.map_some', Function.comp]
    rw [if_neg hid, if_neg hr2]
  · split
    · simp only [List.getElem?_map, hrow, Option.map_some']
      rw [if_neg hid]
    · exact hrow

/-- Super Bowl version: safe rows have a different id. -/
theorem updateSuperBowlGame_preserves_row (s : SeasonState) (t : Game)
    (mt : MatchupTarget) (i : Nat) (g : Game)
    (hrow : s.games[i]? = some g) (hid : ¬g.id = t.id) :
    (updateSuperBowlGame s t mt).games[i]? = some g := by
  unfold updateSuperBowlGame updateById
  dsimp only
  split
  · simp only [List.getElem?_map, hrow, Option.map_some']
    rw [if_neg hid]
  · split
    · simp only [List.getElem?_map, hrow, Option.map_some']
      rw [if_neg hid]
    · exact hrow

/-- The row the cascade branch writes at the target id. -/
def divChangedRow (mt : MatchupTarget) (g : Game) : Game :=
  { g with team_home := mt.home, team_away := mt.away, seed_home := mt.seedHome,
           seed_away := mt.seedAway, is_actual_matchup := true,
           winner := none, completed := false }

/-- The row the first-time-actual branch writes at the target id. -/
def divActualRow (mt : MatchupTarget) (g : Game) : Game :=
  { g with team_home := mt.home, team_away := mt.away, seed_home := mt.seedHome,
           seed_away := mt.seedAway, is_actual_matchup := true }

/-- After a divisional matchup-update call on its own stale row, that position's
stored teams are the computed pair (whichever branch ran), and id/round survive. -/
theorem updateDivisionalGame_sets_row (s : SeasonState) (t : Game)
    (mt : MatchupTarget) (i : Nat)
    (hrow : s.games[i]? = some t)
    (hr1 : ¬t.round = Round.conference) (hr2 : ¬t.round = Round.super_bowl) :
    ∃ g', (updateDivisionalGame s t mt).games[i]? = some g' ∧
      g'.team_home = mt.home ∧ g'.team_away = mt.away ∧
      g'.id = t.id ∧ g'.round = t.round := by
  unfold updateDivisionalGame updateById updateByRound
  dsimp only
  split
  case isTrue hch =>
    refine ⟨divChangedRow mt t, ?_, rfl, rfl, rfl, rfl⟩
    simp only [List.map_map, List.getElem?_map, hrow, Option.map_some', Function.comp]
    simp [divChangedRow, hr1, hr2]
  case isFalse hch =>
    have hteams : t.team_home = mt.home ∧ t.team_away = mt.away := by
      rcases eq_or_ne t.team_home mt.home with h1 | h1 <;>
        rcases eq_or_ne t.team_away mt.away with h2 | h2 <;>
        simp_all
    split
    · refine ⟨divActualRow mt t, ?_, rfl, rfl, rfl, rfl⟩
      simp only [List.getElem?_map, hrow, Option.map_some']
      simp [divActualRow]
    · exact ⟨t, hrow, hteams.1, hteams.2, rfl, rfl⟩

/-- The divisional matchups `confDivTargets` computes: the three winners sorted by
seed give some strictly seed-increasing `x, y, z`; slot 1 is the conference's rank-1
team at home against `z` (the worst-seeded winner), slot 2 is `x` (best) at home
against `y` (second best). -/
theorem confDivTargets_spec (ss : List PlayoffSeed) (c : Conf) (g1 g2 g3 : Game)
    (w1 w2 w3 : String) (σ1 σ2 σ3 : Int)
    (hw1 : g1.winner = some w1) (hw2 : g2.winner = some w2) (hw3 : g3.winner = some w3)
    (hσ1 : getSeedForTeam ss w1 = some σ1) (hσ2 : getSeedForTeam ss w2 = some σ2)
    (hσ3 : getSeedForTeam ss w3 = some σ3)
    (hd12 : σ1 ≠ σ2) (hd13 : σ1 ≠ σ3) (hd23 : σ2 ≠ σ3) :
    ∃ x y z : TeamSeed,
      [x, y, z].Perm [⟨w1, σ1⟩, ⟨w2, σ2⟩, ⟨w3, σ3⟩] ∧
      x.seed < y.seed ∧ y.seed < z.seed ∧
      confDivTargets ss c [g1, g2, g3] =
        (⟨conf1SeedTeam ss c, z.team, some 1, some z.seed⟩,
         ⟨x.team, y.team, some x.seed, some y.seed⟩) := by
  have hlist : confWinnersSorted ss [g1, g2, g3] =
      sortBySeed [⟨w1, σ1⟩, ⟨w2, σ2⟩, ⟨w3, σ3⟩] := by
    unfold confWinnersSorted
    simp [hw1, hw2, hw3, hσ1, hσ2, hσ3]
  have hperm : (sortBySeed [⟨w1, σ1⟩, ⟨w2, σ2⟩, ⟨w3, σ3⟩]).Perm
      [⟨w1, σ1⟩, ⟨w2, σ2⟩, ⟨w3, σ3⟩] := List.perm_insertionSort _ _
  have hsorted : (sortBySeed [⟨w1, σ1⟩, ⟨w2, σ2⟩, ⟨w3, σ3⟩]).Sorted
      (fun a b => a.seed ≤ b.seed) := List.sorted_insertionSort _ _
  have hlen : (sortBySeed [⟨w1, σ1⟩, ⟨w2, σ2⟩, ⟨w3, σ3⟩]).length = 3 :=
    hperm.length_eq
  rcases hsl : sortBySeed [⟨w1, σ1⟩, ⟨w2, σ2⟩, ⟨w3, σ3⟩] with _ | ⟨x, _ | ⟨y, _ | ⟨z, rest⟩⟩⟩ <;>
    rw [hsl] at hlen <;> simp at hlen
  subst hlen
  rw [hsl] at hperm hsorted
  have hxy : x.seed ≤ y.seed := (List.sorted_cons.mp hsorted).1 y (by simp)
  have hyz : y.seed ≤ z.seed :=
    (List.sorted_cons.mp (List.sorted_cons.mp hsorted).2).1 z (by simp)
  have hnodup : ([x, y, z].map TeamSeed.seed).Nodup := by
    have hpm : ([x, y, z].map TeamSeed.seed).Perm
        ([⟨w1, σ1⟩, ⟨w2, σ2⟩, ⟨w3, σ3⟩].map TeamSeed.seed) := hperm.map _
    refine hpm.nodup_iff.mpr ?_
    simp [hd12, hd13, hd23]
  have hxy' : x.seed ≠ y.seed := by
    intro hc
    simp [hc] at hnodup
  have hyz' : y.seed ≠ z.seed := by
    intro hc
    simp [hc] at hnodup
  refine ⟨x, y, z, hperm, lt_of_le_of_ne hxy hxy', lt_of_le_of_ne hyz hyz', ?_⟩
  unfold confDivTargets
  rw [hlist, hsl]
  rfl

/-- `applyConference` version of `updateConferenceGame_preserves_row`. -/
theorem applyConference_preserves_row (s : SeasonState) (t? : Option Game)
    (mt : MatchupTarget) (i : Nat) (g : Game)
    (hrow : s.games[i]? = some g) (hid : ∀ t, t? = some t → ¬g.id = t.id)
    (hr2 : ¬g.round = Round.super_bowl) :
    (applyConference s t? mt).games[i]? = some g := by
  cases ht? : t? with
  | none => exact hrow
  | some t => exact updateConferenceGame_preserves_row s t mt i g hrow (hid t ht?) hr2

/-- The conference stage leaves any row alone whose id is fetched nowhere in the
conference list and which is not the Super Bowl. -/
theorem reseedConferenceStage_preserves_row (s : SeasonState) (seeds : List PlayoffSeed)
    (divisionalGames conferenceGames : List Game) (i : Nat) (g : Game)
    (hrow : s.games[i]? = some g)
    (hids : ∀ u ∈ conferenceGames, ¬g.id = u.id)
    (hr2 : ¬g.round = Round.super_bowl) :
    (reseedConferenceStage s seeds divisionalGames conferenceGames).games[i]? = some g := by
  have hslot : ∀ (j : Nat) (t : Game), conferenceGames[j]? = some t → ¬g.id = t.id :=
    fun j t hjt => hids t (List.getElem?_mem hjt)
  unfold reseedConferenceStage
  dsimp only
  split
  · apply applyConference_preserves_row
    · split
      · exact applyConference_preserves_row _ _ _ _ _ hrow (hslot 0) hr2
      · exact hrow
    · exact hslot 1
    · exact hr2
  · split
    · exact applyConference_preserves_row _ _ _ _ _ hrow (hslot 0) hr2
    · exact hrow

/-- The Super Bowl stage leaves any row with a different id alone. -/
theorem reseedSuperBowlStage_preserves_row (s : SeasonState) (seeds : List PlayoffSeed)
    (conferenceGames : List Game) (sb : Game) (i : Nat) (g : Game)
    (hrow : s.games[i]? = some g) (hid : ¬g.id = sb.id) :
    (reseedSuperBowlStage s seeds conferenceGames sb).games[i]? = some g := by
  unfold reseedSuperBowlStage
  exact updateSuperBowlGame_preserves_row s sb _ i g hrow hid

/-- What the divisional stage writes into the four divisional slots of a standard
bracket whose six wild card winners are all truthy: each slot ends up holding its
computed matchup. -/
theorem reseedDivisionalStage_sets_rows (b : Bracket) (seeds ss : List PlayoffSeed)
    (hs : b.StdShape)
    (hwA : ([b.wc1, b.wc2, b.wc3].all (fun g => strTruthy g.winner)) = true)
    (hwN : ([b.wc4, b.wc5, b.wc6].all (fun g => strTruthy g.winner)) = true) :
    ∃ gA1 gA2 gN1 gN2 : Game,
      (reseedDivisionalStage (b.state seeds) ss
          [b.wc1, b.wc2, b.wc3, b.wc4, b.wc5, b.wc6]
          [b.d1, b.d2, b.d3, b.d4]).games[2]? = some gA1 ∧
      gA1.team_home = (confDivTargets ss .AFC b.afcWCs).1.home ∧
      gA1.team_away = (confDivTargets ss .AFC b.afcWCs).1.away ∧
      gA1.id = 7 ∧ gA1.round = .divisional ∧
      (reseedDivisionalStage (b.state seeds) ss
          [b.wc1, b.wc2, b.wc3, b.wc4, b.wc5, b.wc6]
          [b.d1, b.d2, b.d3, b.d4]).games[3]? = some gA2 ∧
      gA2.team_home = (confDivTargets ss .AFC b.afcWCs).2.home ∧
      gA2.team_away = (confDivTargets ss .AFC b.afcWCs).2.away ∧
      gA2.id = 8 ∧ gA2.round = .divisional ∧
      (reseedDivisionalStage (b.state seeds) ss
          [b.wc1, b.wc2, b.wc3, b.wc4, b.wc5, b.wc6]
          [b.d1, b.d2, b.d3, b.d4]).games[4]? = some gN1 ∧
      gN1.team_home = (confDivTargets ss .NFC b.nfcWCs).1.home ∧
      gN1.team_away = (confDivTargets ss .NFC b.nfcWCs).1.away ∧
      gN1.id = 9 ∧ gN1.round = .divisional ∧
      (reseedDivisionalStage (b.state seeds) ss
          [b.wc1, b.wc2, b.wc3, b.wc4, b.wc5, b.wc6]
          [b.d1, b.d2, b.d3, b.d4]).games[5]? = some gN2 ∧
      gN2.team_home = (confDivTargets ss .NFC b.nfcWCs).2.home ∧
      gN2.team_away = (confDivTargets ss .NFC b.nfcWCs).2.away ∧
      gN2.id = 10 ∧ gN2.round = .divisional := by
  obtain ⟨h1, h2, h3, h4, h5, h6, h7, h8, h9, h10, h11, h12, h13, h14, h15, h16,
    h17, h18, h19, h20, h21, h22, h23, h24, h25, h26, h27, h28, h29, h30,
    h31, h32, h33, h34, h35, h36, h37, h38, h39⟩ := hs
  have hs' : b.StdShape := by
    unfold Bracket.StdShape
    exact ⟨h1, h2, h3, h4, h5, h6, h7, h8, h9, h10, h11, h12, h13, h14, h15, h16,
      h17, h18, h19, h20, h21, h22, h23, h24, h25, h26, h27, h28, h29, h30,
      h31, h32, h33, h34, h35, h36, h37, h38, h39⟩
  obtain ⟨hafcw, hnfcw, hafcd, hnfcd⟩ := bracket_conf_lists b hs'
  unfold reseedDivisionalStage
  rw [hafcw, hnfcw]
  simp only [Bracket.afcWCs, Bracket.nfcWCs, hwA, hwN, if_true]
  simp only [List.getElem?_cons_zero, List.getElem?_cons_succ, applyDivisional]
  have hrow1 : (b.state seeds).games[2]? = some b.d1 := by
    simp [Bracket.state, Bracket.rows]
  have hrow2 : (b.state seeds).games[3]? = some b.d2 := by
    simp [Bracket.state, Bracket.rows]
  have hrow3 : (b.state seeds).games[4]? = some b.d3 := by
    simp [Bracket.state, Bracket.rows]
  have hrow4 : (b.state seeds).games[5]? = some b.d4 := by
    simp [Bracket.state, Bracket.rows]
  obtain ⟨gA1, hgA1, hgA1h, hgA1a, hgA1id, hgA1r⟩ :=
    updateDivisionalGame_sets_row (b.state seeds) b.d1
      (confDivTargets ss .AFC [b.wc1, b.wc2, b.wc3]).1 2 hrow1
      (by rw [h20]; simp) (by rw [h20]; simp)
  rw [h19] at hgA1id
  rw [h20] at hgA1r
  obtain ⟨gA2, hgA2, hgA2h, hgA2a, hgA2id, hgA2r⟩ :=
    updateDivisionalGame_sets_row
      (updateDivisionalGame (b.state seeds) b.d1
        (confDivTargets ss .AFC [b.wc1, b.wc2, b.wc3]).1) b.d2
      (confDivTargets ss .AFC [b.wc1, b.wc2, b.wc3]).2 3
      (updateDivisionalGame_preserves_row (b.state seeds) b.d1
        (confDivTargets ss .AFC [b.wc1, b.wc2, b.wc3]).1 3 b.d2 hrow2
        (by rw [h22, h19]; omega) (by rw [h23]; simp) (by rw [h23]; simp))
      (by rw [h23]; simp) (by rw [h23]; simp)
  rw [h22] at hgA2id
  rw [h23] at hgA2r
  obtain ⟨gN1, hgN1, hgN1h, hgN1a, hgN1id, hgN1r⟩ :=
    updateDivisionalGame_sets_row
      (updateDivisionalGame
        (updateDivisionalGame (b.state seeds) b.d1
          (confDivTargets ss .AFC [b.wc1, b.wc2, b.wc3]).1) b.d2
        (confDivTargets ss .AFC [b.wc1, b.wc2, b.wc3]).2) b.d3
      (confDivTargets ss .NFC [b.wc4, b.wc5, b.wc6]).1 4
      (updateDivisionalGame_preserves_row
        (updateDivisionalGame (b.state seeds) b.d1
          (confDivTargets ss .AFC [b.wc1, b.wc2, b.wc3]).1) b.d2
        (confDivTargets ss .AFC [b.wc1, b.wc2, b.wc3]).2 4 b.d3
        (updateDivisionalGame_preserves_row (b.state seeds) b.d1
          (confDivTargets ss .AFC [b.wc1, b.wc2, b.wc3]).1 4 b.d3 hrow3
          (by rw [h25, h19]; omega) (by rw [h26]; simp) (by rw [h26]; simp))
        (by rw [h25, h22]; omega) (by rw [h26]; simp) (by rw [h26]; simp))
      (by rw [h26]; simp) (by rw [h26]; simp)
  rw [h25] at hgN1id
  rw [h26] at hgN1r
  obtain ⟨gN2, hgN2, hgN2h, hgN2a, hgN2id, hgN2r⟩ :=
    updateDivisionalGame_sets_row
      (updateDivisionalGame
        (updateDivisionalGame
          (updateDivisionalGame (b.state seeds) b.d1
            (confDivTargets ss .AFC [b.wc1, b.wc2, b.wc3]).1) b.d2
          (confDivTargets ss .AFC [b.wc1, b.wc2, b.wc3]).2) b.d3
        (confDivTargets ss .NFC [b.wc4, b.wc5, b.wc6]).1) b.d4
      (confDivTargets ss .NFC [b.wc4, b.wc5, b.wc6]).2 5
      (updateDivisionalGame_preserves_row
        (updateDivisionalGame
          (updateDivisionalGame (b.state seeds) b.d1
            (confDivTargets ss .AFC [b.wc1, b.wc2, b.wc3]).1) b.d2
          (confDivTargets ss .AFC [b.wc1, b.wc2, b.wc3]).2) b.d3
        (confDivTargets ss .NFC [b.wc4, b.wc5, b.wc6]).1 5 b.d4
        (updateDivisionalGame_preserves_row
          (updateDivisionalGame (b.state seeds) b.d1
            (confDivTargets ss .AFC [b.wc1, b.wc2, b.wc3]).1) b.d2
          (confDivTargets ss .AFC [b.wc1, b.wc2, b.wc3]).2 5 b.d4
          (updateDivisionalGame_preserves_row (b.state seeds) b.d1
            (confDivTargets ss .AFC [b.wc1, b.wc2, b.wc3]).1 5 b.d4 hrow4
            (by rw [h28, h19]; omega) (by rw [h29]; simp) (by rw [h29]; simp))
          (by rw [h28, h22]; omega) (by rw [h29]; simp) (by rw [h29]; simp))
        (by rw [h28, h25]; omega) (by rw [h29]; simp) (by rw [h29]; simp))
      (by rw [h29]; simp) (by rw [h29]; simp)
  rw [h28] at hgN2id
  rw [h29] at hgN2r
  refine ⟨gA1, gA2, gN1, gN2, ?_, hgA1h, hgA1a, hgA1id, hgA1r,
    ?_, hgA2h, hgA2a, hgA2id, hgA2r,
    ?_, hgN1h, hgN1a, hgN1id, hgN1r,
    ?_, hgN2h, hgN2a, hgN2id, hgN2r⟩
  · exact updateDivisionalGame_preserves_row _ b.d4
      (confDivTargets ss .NFC [b.wc4, b.wc5, b.wc6]).2 2 gA1
      (updateDivisionalGame_preserves_row _ b.d3
        (confDivTargets ss .NFC [b.wc4, b.wc5, b.wc6]).1 2 gA1
        (updateDivisionalGame_preserves_row _ b.d2
          (confDivTargets ss .AFC [b.wc1, b.wc2, b.wc3]).2 2 gA1 hgA1
          (by rw [hgA1id, h22]; omega) (by rw [hgA1r]; simp) (by rw [hgA1r]; simp))
        (by rw [hgA1id, h25]; omega) (by rw [hgA1r]; simp) (by rw [hgA1r]; simp))
      (by rw [hgA1id, h28]; omega) (by rw [hgA1r]; simp) (by rw [hgA1r]; simp)
  · exact updateDivisionalGame_preserves_row _ b.d4
      (confDivTargets ss .NFC [b.wc4, b.wc5, b.wc6]).2 3 gA2
      (updateDivisionalGame_preserves_row _ b.d3
        (confDivTargets ss .NFC [b.wc4, b.wc5, b.wc6]).1 3 gA2 hgA2
        (by rw [hgA2id, h25]; omega) (by rw [hgA2r]; simp) (by rw [hgA2r]; simp))
      (by rw [hgA2id, h28]; omega) (by rw [hgA2r]; simp) (by rw [hgA2r]; simp)
  · exact updateDivisionalGame_preserves_row _ b.d4
      (confDivTargets ss .NFC [b.wc4, b.wc5, b.wc6]).2 4 gN1 hgN1
      (by rw [hgN1id, h28]; omega) (by rw [hgN1r]; simp) (by rw [hgN1r]; simp)
  · exact hgN2

/-! ## Concrete seasons used by witnesses and counterexamples -/

/-- 14 chalk seeds: AFC teams `A1..A7`, NFC teams `N1..N7`, rank = index. -/
def chalkSeeds : List PlayoffSeed :=
  [⟨.AFC, 1, "A1"⟩, ⟨.AFC, 2, "A2"⟩, ⟨.AFC, 3, "A3"⟩, ⟨.AFC, 4, "A4"⟩,
   ⟨.AFC, 5, "A5"⟩, ⟨.AFC, 6, "A6"⟩, ⟨.AFC, 7, "A7"⟩,
   ⟨.NFC, 1, "N1"⟩, ⟨.NFC, 2, "N2"⟩, ⟨.NFC, 3, "N3"⟩, ⟨.NFC, 4, "N4"⟩,
   ⟨.NFC, 5, "N5"⟩, ⟨.NFC, 6, "N6"⟩, ⟨.NFC, 7, "N7"⟩]

/-- A fully decided chalk season: every favourite won every game. -/
def chalkBracket : Bracket where
  wc1 := ⟨1, .wild_card, 1, "A2", "A7", some 2, some 7, some "A2", true, true⟩
  wc2 := ⟨2, .wild_card, 2, "A3", "A6", some 3, some 6, some "A3", true, true⟩
  wc3 := ⟨3, .wild_card, 3, "A4", "A5", some 4, some 5, some "A4", true, true⟩
  wc4 := ⟨4, .wild_card, 4, "N2", "N7", some 2, some 7, some "N2", true, true⟩
  wc5 := ⟨5, .wild_card, 5, "N3", "N6", some 3, some 6, some "N3", true, true⟩
  wc6 := ⟨6, .wild_card, 6, "N4", "N5", some 4, some 5, some "N4", true, true⟩
  d1 := ⟨7, .divisional, 1, "A1", "A4", some 1, some 4, some "A1", true, true⟩
  d2 := ⟨8, .divisional, 2, "A2", "A3", some 2, some 3, some "A2", true, true⟩
  d3 := ⟨9, .divisional, 3, "N1", "N4", some 1, some 4, some "N1", true, true⟩
  d4 := ⟨10, .divisional, 4, "N2", "N3", some 2, some 3, some "N2", true, true⟩
  c1 := ⟨11, .conference, 1, "A1", "A2", some 1, some 2, some "A1", true, true⟩
  c2 := ⟨12, .conference, 2, "N1", "N2", some 1, some 2, some "N1", true, true⟩
  sb := ⟨13, .super_bowl, 1, "A1", "N1", some 1, some 1, some "A1", true, true⟩

/-- The decided chalk season state. -/
def chalkState : SeasonState := chalkBracket.state chalkSeeds

/-- The decided chalk season just after "A5" has been recorded over game 3's winner:
the recomputed AFC divisional slot 1 (A1 vs A5) now differs from the stored A1 vs A4. -/
def flipBracket : Bracket :=
  { chalkBracket with
    wc3 := ⟨3, .wild_card, 3, "A4", "A5", some 4, some 5, some "A5", true, true⟩ }

/-- The freshly generated chalk season with five of six wild card games decided:
game 6 is still open, every later round a placeholder. -/
def partialBracket : Bracket where
  wc1 := ⟨1, .wild_card, 1, "A2", "A7", some 2, some 7, some "A2", true, true⟩
  wc2 := ⟨2, .wild_card, 2, "A3", "A6", some 3, some 6, some "A3", true, true⟩
  wc3 := ⟨3, .wild_card, 3, "A4", "A5", some 4, some 5, some "A4", true, true⟩
  wc4 := ⟨4, .wild_card, 4, "N2", "N7", some 2, some 7, some "N2", true, true⟩
  wc5 := ⟨5, .wild_card, 5, "N3", "N6", some 3, some 6, some "N3", true, true⟩
  wc6 := ⟨6, .wild_card, 6, "N4", "N5", some 4, some 5, none, false, true⟩
  d1 := ⟨7, .divisional, 1, "TBD", "TBD", none, none, none, false, false⟩
  d2 := ⟨8, .divisional, 2, "TBD", "TBD", none, none, none, false, false⟩
  d3 := ⟨9, .divisional, 3, "TBD", "TBD", none, none, none, false, false⟩
  d4 := ⟨10, .divisional, 4, "TBD", "TBD", none, none, none, false, false⟩
  c1 := ⟨11, .conference, 1, "TBD", "TBD", none, none, none, false, false⟩
  c2 := ⟨12, .conference, 2, "TBD", "TBD", none, none, none, false, false⟩
  sb := ⟨13, .super_bowl, 1, "TBD", "TBD", none, none, none, false, false⟩

/-- The decided chalk season with a stale conference game: c1 stores A1 vs A3 while
the recompute from the divisional winners gives A1 vs A2. -/
def staleConfBracket : Bracket :=
  { chalkBracket with
    c1 := ⟨11, .conference, 1, "A1", "A3", some 1, some 3, some "A1", true, true⟩ }

/-- The chalk season after "A5" was recorded over wild card game 3 while the Super
Bowl is still unplayed: the conference games hold winners that are now stale, and
the bracket is not fully decided. -/
def preSBBracket : Bracket :=
  { flipBracket with
    sb := ⟨13, .super_bowl, 1, "A1", "N1", some 1, some 1, none, false, true⟩ }

/-- C6: re-recording the identical winner for an already-decided game of a decided,
consistent standard bracket is a no-op on the whole season: every recomputed matchup
equals the stored home/away pair with `isActualMatchup` already true, so every
matchup-update call changes nothing and every downstream game's winner and completed
flag are preserved. -/
theorem c6_rerecord_winner_idempotent (b : Bracket) (seeds : List PlayoffSeed)
    (gameId : Nat) (w : String)
    (hs : b.StdShape) (hd : b.Decided) (hc : b.Consistent seeds)
    (hex : (getGameById (b.state seeds) gameId).isSome = true)
    (hsame : ∀ g ∈ (b.state seeds).games, g.id = gameId →
      g.winner = some w ∧ g.completed = true) :
    updateGameWinner (b.state seeds) gameId w = .ok (b.state seeds) := by
  obtain ⟨g0, hg0⟩ := Option.isSome_iff_exists.mp hex
  unfold updateGameWinner
  rw [hg0]
  rw [setWinnerRows_self _ _ _ hsame]
  exact congrArg Except.ok (reseedPlayoffBracket_consistent_noop b seeds hs hd hc)

/-- C6 witness: re-recording "A2" as the winner of the first wild card game of the
decided chalk season leaves the whole season state unchanged. -/
theorem c6_rerecord_winner_idempotent_witness :
    updateGameWinner chalkState 1 "A2" = .ok chalkState :=
  c6_rerecord_winner_idempotent chalkBracket chalkSeeds 1 "A2"
    (by decide) (by decide) (by decide) (by decide) (by decide)

/-- C3 witness: a flipped wild card winner (divisional recompute differs) leaves both
conference games and the Super Bowl cleared — on the fully decided chalk season and
also on the not-yet-decided variant whose Super Bowl is unplayed and whose
conference games hold stale winners; and a stale conference matchup leaves the
Super Bowl cleared. -/
theorem c3_cascade_clears_downstream_witness :
    downstreamCleared (reseedPlayoffBracket (flipBracket.state chalkSeeds)) ∧
    downstreamCleared (reseedPlayoffBracket (preSBBracket.state chalkSeeds)) ∧
    sbCleared (reseedPlayoffBracket (staleConfBracket.state chalkSeeds)) :=
  ⟨(c3_cascade_clears_downstream flipBracket chalkSeeds (by decide)).1
      (by decide) (Or.inl (by decide)),
   (c3_cascade_clears_downstream preSBBracket chalkSeeds (by decide)).1
      (by decide) (Or.inl (by decide)),
   (c3_cascade_clears_downstream staleConfBracket chalkSeeds (by decide)).2
      (by decide) (Or.inl (by decide))⟩

/-- C10 witness: on the decided chalk season (ids 1..13, so unique), row 7 of the
store — the first wild card game — is untouched by a re-seeding run. -/
theorem c10_wildcard_frame_witness :
    (reseedPlayoffBracket chalkState).games[7]? = some chalkBracket.wc1 :=
  (c10_wildcard_frame chalkState (by decide)).2.2 7 chalkBracket.wc1
    (by decide) (by decide)

/-- C2 counterexample: in the fully decided chalk season, recording "A5" over wild
card game 3's winner changes only the AFC divisional slot 1 matchup (A1 vs A5,
previously A1 vs A4); the NFC divisional games keep their matchups and winners, yet
the NFC conference-round game — a game of the *other* conference — loses its stored
winner ("N1") and completed flag, contradicting "every game belonging to the other
conference keeps its winner and completed flag unchanged". -/
theorem c2_counterexample :
    ((updateGameWinner chalkState 3 "A5").toOption.bind (fun s => getGameById s 9)).map
        (fun g => (g.team_home, g.team_away, g.winner, g.completed)) =
      some ("N1", "N4", some "N1", true) ∧
    ((updateGameWinner chalkState 3 "A5").toOption.bind (fun s => getGameById s 10)).map
        (fun g => (g.team_home, g.team_away, g.winner, g.completed)) =
      some ("N2", "N3", some "N2", true) ∧
    ((updateGameWinner chalkState 3 "A5").toOption.bind (fun s => getGameById s 7)).map
        (fun g => (g.team_home, g.team_away)) = some ("A1", "A5") ∧
    (getGameById chalkState 12).map (fun g => (g.winner, g.completed)) =
      some (some "N1", true) ∧
    ((updateGameWinner chalkState 3 "A5").toOption.bind (fun s => getGameById s 12)).map
        (fun g => (g.winner, g.completed)) = some (none, false) := by decide

/-- C2 witness: the amended characterization applied to the flipped chalk season —
the other conference's conference game ends cleared. -/
theorem c2_cross_conference_clear_witness :
    (reseedPlayoffBracket (flipBracket.state chalkSeeds)).games[1]? =
      some (clearResult flipBracket.c2) ∧
    updateGameWinner chalkState 3 "A5" =
      .ok (reseedPlayoffBracket ⟨setWinnerRows chalkState.games 3 "A5", chalkState.seeds⟩) := by
  constructor
  · have h := (c2_cross_conference_clear flipBracket chalkSeeds (by decide) (by decide)).1
      (by decide) (by decide) (by decide) (by decide) (by decide)
    rw [h]
    rfl
  · exact (c2_cross_conference_clear flipBracket chalkSeeds (by decide) (by decide)).2.2.2.2
      chalkState 3 "A5" (by decide)

/-- C7 witness: with only five wild card games decided in the generated chalk
season, every divisional placeholder survives a re-seeding run untouched. -/
theorem c7_partial_wildcard_frame_witness :
    (reseedPlayoffBracket (partialBracket.state chalkSeeds)).games[2]? =
      some partialBracket.d1 ∧
    (reseedPlayoffBracket (partialBracket.state chalkSeeds)).games[3]? =
      some partialBracket.d2 ∧
    (reseedPlayoffBracket (partialBracket.state chalkSeeds)).games[4]? =
      some partialBracket.d3 ∧
    (reseedPlayoffBracket (partialBracket.state chalkSeeds)).games[5]? =
      some partialBracket.d4 :=
  c7_partial_wildcard_frame partialBracket chalkSeeds (by decide) (by decide)

/-! ## Claim C1: recordWinner error handling -/

/-- C1 counterexample: on the fully seeded, decided chalk season, recording "DAL" —
a team that is neither the home nor the away team of the Super Bowl (A1 vs N1) —
does not fail with a ValidationError; the call succeeds, stores "DAL" as the Super
Bowl winner and completes the re-seeding run (a no-op here, since every recomputed
matchup matches the stored rows), so a stored non-null winner need not equal the
game's home or away team. -/
theorem c1_counterexample :
    updateGameWinner chalkState 13 "DAL" =
      .ok (Bracket.state
        { chalkBracket with
          sb := ⟨13, .super_bowl, 1, "A1", "N1", some 1, some 1, some "DAL", true, true⟩ }
        chalkSeeds) ∧
    "DAL" ≠ "A1" ∧ "DAL" ≠ "N1" := by decide

/-- C1 (amended): `updateGameWinner` fails with NotFoundError ("Game not found") when
no game has the id, and otherwise — with no validation of the winning team at all —
records the winner with `completed = 1` and runs the full re-seeding cascade for the
game's season before returning. -/
theorem c1_record_winner_amended (s : SeasonState) (gameId : Nat) (w : String) :
    (getGameById s gameId = none →
      updateGameWinner s gameId w = .error (.notFound "Game not found")) ∧
    ((getGameById s gameId).isSome = true →
      updateGameWinner s gameId w =
        .ok (reseedPlayoffBracket ⟨setWinnerRows s.games gameId w, s.seeds⟩)) := by
  constructor
  · intro h
    unfold updateGameWinner
    rw [h]
  · intro h
    obtain ⟨g0, hg0⟩ := Option.isSome_iff_exists.mp h
    unfold updateGameWinner
    rw [hg0]

/-- C1 witness: both branches at concrete inputs on the chalk season — a missing id
yields the NotFoundError, and a present id triggers the write plus cascade. -/
theorem c1_record_winner_amended_witness :
    updateGameWinner chalkState 99 "A1" = .error (.notFound "Game not found") ∧
    updateGameWinner chalkState 1 "A2" =
      .ok (reseedPlayoffBracket ⟨setWinnerRows chalkState.games 1 "A2", chalkState.seeds⟩) :=
  ⟨(c1_record_winner_amended chalkState 99 "A1").1 (by decide),
   (c1_record_winner_amended chalkState 1 "A2").2 (by decide)⟩

/-! ## Claim C5: generateBracket seed-count guard -/

/-- 15 seeds: the 14 chalk seeds plus an eighth AFC seed. -/
def c5Seeds : List PlayoffSeed := chalkSeeds ++ [⟨.AFC, 8, "A8"⟩]

/-- A season with one stored game and the 15-seed registry. -/
def c5State : SeasonState :=
  ⟨[⟨1, .wild_card, 1, "OLD", "OLD2", none, none, none, false, true⟩], c5Seeds⟩

/-- C5 counterexample: with 8 AFC seeds (not exactly 7) the generator does not fail
with a ValidationError — it succeeds and replaces the stored games. -/
theorem c5_counterexample :
    ((getPlayoffSeeds c5State).filter (fun st => st.conference == Conf.AFC)).length = 8 ∧
    (generatePlayoffGamesFromSeeds c5State).isOk = true ∧
    (generatePlayoffGamesFromSeeds c5State).toOption.map (fun s => s.games.length) =
      some 13 ∧
    c5State.games.length = 1 := by decide

/-- C5 (amended): `generatePlayoffGamesFromSeeds` succeeds exactly when each
conference has at least 7 seeds (the guard is `< 7`, not `!== 7`); every failure is
one of the two validation errors, thrown before any mutation; and on success it
replaces the season's games with the 13 freshly generated rows, leaving the seed
registry untouched. -/
theorem c5_generate_bracket_amended (s : SeasonState) :
    ((generatePlayoffGamesFromSeeds s).isOk = true ↔
      (7 ≤ ((getPlayoffSeeds s).filter (fun st => st.conference == Conf.AFC)).length ∧
       7 ≤ ((getPlayoffSeeds s).filter (fun st => st.conference == Conf.NFC)).length)) ∧
    (∀ e, generatePlayoffGamesFromSeeds s = .error e →
      e = .validation "No playoff seeds defined for this season" ∨
      e = .validation "Each conference must have 7 seeds defined") ∧
    (∀ s', generatePlayoffGamesFromSeeds s = .ok s' →
      s'.seeds = s.seeds ∧
      s'.games = generatedGames
        (((getPlayoffSeeds s).filter (fun st => st.conference == Conf.AFC)).insertionSort
          (fun a b => a.seed ≤ b.seed))
        (((getPlayoffSeeds s).filter (fun st => st.conference == Conf.NFC)).insertionSort
          (fun a b => a.seed ≤ b.seed))) := by
  have hA : (((getPlayoffSeeds s).filter (fun st => st.conference == Conf.AFC)).insertionSort
      (fun a b => a.seed ≤ b.seed)).length =
      ((getPlayoffSeeds s).filter (fun st => st.conference == Conf.AFC)).length :=
    List.length_insertionSort _ _
  have hN : (((getPlayoffSeeds s).filter (fun st => st.conference == Conf.NFC)).insertionSort
      (fun a b => a.seed ≤ b.seed)).length =
      ((getPlayoffSeeds s).filter (fun st => st.conference == Conf.NFC)).length :=
    List.length_insertionSort _ _
  unfold generatePlayoffGamesFromSeeds
  by_cases h0 : (getPlayoffSeeds s).length = 0
  · have hafc : ((getPlayoffSeeds s).filter (fun st => st.conference == Conf.AFC)) = [] := by
      rw [List.length_eq_zero] at h0
      simp [h0]
    rw [if_pos h0]
    refine ⟨?_, ?_, ?_⟩
    · simp [Except.isOk, Except.toBool, hafc]
    · intro e he
      injection he with h
      exact Or.inl h.symm
    · intro s' hs'
      exact absurd hs' (by simp)
  · rw [if_neg h0]
    by_cases hlt :
      (((getPlayoffSeeds s).filter (fun st => st.conference == Conf.AFC)).insertionSort
          (fun a b => a.seed ≤ b.seed)).length < 7 ∨
      (((getPlayoffSeeds s).filter (fun st => st.conference == Conf.NFC)).insertionSort
          (fun a b => a.seed ≤ b.seed)).length < 7
    · rw [if_pos hlt]
      rw [hA, hN] at hlt
      refine ⟨?_, ?_, ?_⟩
      · simp only [Except.isOk, Except.toBool]
        constructor
        · intro hfalse
          exact absurd hfalse (by simp)
        · rintro ⟨h7a, h7n⟩
          exact absurd hlt (by omega)
      · intro e he
        injection he with h
        exact Or.inr h.symm
      · intro s' hs'
        exact absurd hs' (by simp)
    · rw [if_neg hlt]
      rw [hA, hN] at hlt
      rw [not_or] at hlt
      refine ⟨?_, ?_, ?_⟩
      · constructor
        · intro _
          exact ⟨by omega, by omega⟩
        · intro _
          rfl
      · intro e he
        exact absurd he (by simp)
      · intro s' hs'
        injection hs' with h
        subst h
        exact ⟨rfl, rfl⟩

/-- C5 witness: on the 14 chalk seeds the generator succeeds and rebuilds the games. -/
theorem c5_generate_bracket_amended_witness :
    (generatePlayoffGamesFromSeeds (SeasonState.mk [] chalkSeeds)).isOk = true :=
  (c5_generate_bracket_amended ⟨[], chalkSeeds⟩).1.mpr ⟨by decide, by decide⟩

/-! ## Claim C8: scoring characterization and the weighted total -/

/-- All-correct predictions of participant 1 for the decided chalk season. -/
def chalkAllCorrectPreds : List Prediction :=
  [⟨1, 1, "A2", none⟩, ⟨1, 2, "A3", none⟩, ⟨1, 3, "A4", none⟩,
   ⟨1, 4, "N2", none⟩, ⟨1, 5, "N3", none⟩, ⟨1, 6, "N4", none⟩,
   ⟨1, 7, "A1", none⟩, ⟨1, 8, "A2", none⟩, ⟨1, 9, "N1", none⟩, ⟨1, 10, "N2", none⟩,
   ⟨1, 11, "A1", none⟩, ⟨1, 12, "N1", none⟩, ⟨1, 13, "A1", none⟩]

/-- A completed game whose stored winner is the empty string. -/
def c8Game : Game := ⟨1, .wild_card, 1, "H", "X", none, none, some "", true, true⟩

/-- A prediction matching that stored winner exactly. -/
def c8Pred : Prediction := ⟨1, 1, "", none⟩

/-- C8 counterexample: the game is completed, its winner is non-null, and the
predicted winner equals the stored winner, yet the calculator awards no points —
JavaScript truthiness (`!game.winner`) also rejects the empty string, so "non-null"
is not the precise condition. -/
theorem c8_counterexample :
    c8Game.completed = true ∧ c8Game.winner.isSome = true ∧
    c8Game.winner = some c8Pred.predicted_winner ∧
    calculatePoints c8Game c8Pred .weighted = ⟨0, 0, false⟩ := by decide

/-- C8 (amended): a prediction scores exactly when its game is completed with a
non-null, non-empty winner equal to the predicted winner — in which case it is worth
1 simple point and the round weight (1/2/3/5) — and otherwise contributes 0; a
participant with all-correct predictions over the 13-game chalk season totals
6·1 + 4·2 + 2·3 + 1·5 = 25 weighted points, and a prediction whose game no longer
exists contributes nothing. -/
theorem c8_scoring_amended :
    (∀ (g : Game) (p : Prediction) (st : ScoringType),
      ((calculatePoints g p st).isCorrect = true ↔
        (g.completed = true ∧ ∃ w, g.winner = some w ∧ w ≠ "" ∧ p.predicted_winner = w)) ∧
      ((calculatePoints g p st).isCorrect = true →
        calculatePoints g p st = ⟨1, WEIGHTED_POINTS g.round, true⟩) ∧
      ((calculatePoints g p st).isCorrect = false →
        calculatePoints g p st = ⟨0, 0, false⟩)) ∧
    ((calculateLeaderboard chalkState.games chalkAllCorrectPreds [⟨1, "P1"⟩] .weighted).map
        (fun e => (e.simpleScore, e.weightedScore, e.correctPicks, e.totalPicks)) =
      [(13, 25, 13, 13)]) ∧
    (calculateLeaderboard [] [⟨1, 99, "A1", none⟩] [⟨1, "P1"⟩] .weighted =
      [⟨1, "P1", 0, 0, 0, 0⟩]) := by
  refine ⟨?_, by decide, by decide⟩
  intro g p st
  rw [calculatePoints_eq]
  split
  case isTrue h =>
    exact ⟨iff_of_true rfl h, fun _ => rfl, fun hfalse => absurd hfalse (by simp)⟩
  case isFalse h =>
    exact ⟨iff_of_false (by simp) h, fun htrue => absurd htrue (by simp), fun _ => rfl⟩

/-- C8 witness: the characterization applied to a concrete correct pick. -/
theorem c8_scoring_amended_witness :
    calculatePoints ⟨1, .wild_card, 1, "H", "X", none, none, some "H", true, true⟩
      ⟨1, 1, "H", none⟩ .weighted = ⟨1, WEIGHTED_POINTS .wild_card, true⟩ := by
  have h := c8_scoring_amended.1
    ⟨1, .wild_card, 1, "H", "X", none, none, some "H", true, true⟩ ⟨1, 1, "H", none⟩ .weighted
  exact h.2.1 (h.1.mpr ⟨rfl, "H", rfl, by decide, rfl⟩)

/-! ## Claim C9: the "both" scoring policy's sort -/

/-- One completed wild card game and one completed Super Bowl. -/
def c9Games : List Game :=
  [⟨1, .wild_card, 1, "KC", "BUF", none, none, some "KC", true, true⟩,
   ⟨2, .super_bowl, 1, "SF", "KC", none, none, some "SF", true, true⟩]

/-- P1 correctly picks the wild card game (weight 1); P2 correctly picks the
Super Bowl (weight 5).  Both have simple score 1. -/
def c9Preds : List Prediction := [⟨1, 1, "KC", none⟩, ⟨2, 2, "SF", none⟩]

/-- Two participants in submission order. -/
def c9Parts : List Participant := [⟨1, "P1"⟩, ⟨2, "P2"⟩]

/-- C9 counterexample: under the "both" policy the two participants tie on simple
score 1, P2 has the strictly higher weighted score (5 > 1), yet P2 is ordered
second — the weighted score is not used as a tiebreak. -/
theorem c9_counterexample :
    (calculateLeaderboard c9Games c9Preds c9Parts .both).map
      (fun e => (e.participantId, e.simpleScore, e.weightedScore)) =
      [(1, 1, 1), (2, 1, 5)] := by decide

/-- C9 (amended): under the "both" policy the leaderboard still carries both totals
per entry but is sorted exactly as under the "simple" policy — by simple score
descending only, with no weighted tiebreak (ties keep participant order, the stable
sort's input order). -/
theorem c9_both_policy_amended (games : List Game) (preds : List Prediction)
    (parts : List Participant) :
    calculateLeaderboard games preds parts .both =
      calculateLeaderboard games preds parts .simple ∧
    (calculateLeaderboard games preds parts .both).Perm
      (leaderboardEntries games preds parts .both) ∧
    (calculateLeaderboard games preds parts .both).Sorted
      (fun a b => b.simpleScore ≤ a.simpleScore) := by
  refine ⟨rfl, ?_, ?_⟩
  · unfold calculateLeaderboard
    simp only [reduceCtorEq, if_false, reduceIte]
    exact List.perm_insertionSort _ _
  · unfold calculateLeaderboard
    simp only [reduceCtorEq, if_false, reduceIte]
    exact List.sorted_insertionSort _ _

/-- The chalk season just after the last wild card game has been decided: all six
wild card winners recorded (every favourite won), every later round still a TBD
placeholder. -/
def chalkWCBracket : Bracket :=
  { partialBracket with
    wc6 := ⟨6, .wild_card, 6, "N4", "N5", some 4, some 5, some "N4", true, true⟩ }

/-- C4: on a standard bracket whose six wild card games are all completed with
non-empty winners, whose seed lookups are defined and distinct within each
conference, the re-seeding engine fills the AFC divisional slots (stored rows 2-3)
and the NFC divisional slots (stored rows 4-5) so that slot 1 hosts the
conference's #1 seed against the worst-seeded of that conference's three wild card
winners and slot 2 hosts the best-seeded winner against the second-best-seeded
one. -/
theorem c4_divisional_matchups (b : Bracket) (seeds : List PlayoffSeed)
    (w1 w2 w3 w4 w5 w6 : String) (σ1 σ2 σ3 σ4 σ5 σ6 : Int)
    (hs : b.StdShape)
    (hc1 : b.wc1.completed = true) (hv1 : b.wc1.winner = some w1) (hn1 : w1 ≠ "")
    (hc2 : b.wc2.completed = true) (hv2 : b.wc2.winner = some w2) (hn2 : w2 ≠ "")
    (hc3 : b.wc3.completed = true) (hv3 : b.wc3.winner = some w3) (hn3 : w3 ≠ "")
    (hc4 : b.wc4.completed = true) (hv4 : b.wc4.winner = some w4) (hn4 : w4 ≠ "")
    (hc5 : b.wc5.completed = true) (hv5 : b.wc5.winner = some w5) (hn5 : w5 ≠ "")
    (hc6 : b.wc6.completed = true) (hv6 : b.wc6.winner = some w6) (hn6 : w6 ≠ "")
    (hσ1 : getSeedForTeam (getPlayoffSeeds (b.state seeds)) w1 = some σ1)
    (hσ2 : getSeedForTeam (getPlayoffSeeds (b.state seeds)) w2 = some σ2)
    (hσ3 : getSeedForTeam (getPlayoffSeeds (b.state seeds)) w3 = some σ3)
    (hσ4 : getSeedForTeam (getPlayoffSeeds (b.state seeds)) w4 = some σ4)
    (hσ5 : getSeedForTeam (getPlayoffSeeds (b.state seeds)) w5 = some σ5)
    (hσ6 : getSeedForTeam (getPlayoffSeeds (b.state seeds)) w6 = some σ6)
    (hd12 : σ1 ≠ σ2) (hd13 : σ1 ≠ σ3) (hd23 : σ2 ≠ σ3)
    (hd45 : σ4 ≠ σ5) (hd46 : σ4 ≠ σ6) (hd56 : σ5 ≠ σ6) :
    (∃ x y z : TeamSeed,
      [x, y, z].Perm [⟨w1, σ1⟩, ⟨w2, σ2⟩, ⟨w3, σ3⟩] ∧
      x.seed < y.seed ∧ y.seed < z.seed ∧
      (∃ g, (reseedPlayoffBracket (b.state seeds)).games[2]? = some g ∧
        g.team_home = conf1SeedTeam (getPlayoffSeeds (b.state seeds)) .AFC ∧
        g.team_away = z.team) ∧
      (∃ g, (reseedPlayoffBracket (b.state seeds)).games[3]? = some g ∧
        g.team_home = x.team ∧ g.team_away = y.team)) ∧
    (∃ x y z : TeamSeed,
      [x, y, z].Perm [⟨w4, σ4⟩, ⟨w5, σ5⟩, ⟨w6, σ6⟩] ∧
      x.seed < y.seed ∧ y.seed < z.seed ∧
      (∃ g, (reseedPlayoffBracket (b.state seeds)).games[4]? = some g ∧
        g.team_home = conf1SeedTeam (getPlayoffSeeds (b.state seeds)) .NFC ∧
        g.team_away = z.team) ∧
      (∃ g, (reseedPlayoffBracket (b.state seeds)).games[5]? = some g ∧
        g.team_home = x.team ∧ g.team_away = y.team)) := by
  obtain ⟨hwcf, hdvf, hcff, hsbf⟩ := bracket_round_lists b hs
  have hgA : ([b.wc1, b.wc2, b.wc3].all fun g => strTruthy g.winner) = true := by
    simp [strTruthy, hv1, hv2, hv3, hn1, hn2, hn3]
  have hgN : ([b.wc4, b.wc5, b.wc6].all fun g => strTruthy g.winner) = true := by
    simp [strTruthy, hv4, hv5, hv6, hn4, hn5, hn6]
  obtain ⟨gA1, gA2, gN1, gN2, hgA1, hgA1h, hgA1a, hgA1id, hgA1r,
    hgA2, hgA2h, hgA2a, hgA2id, hgA2r,
    hgN1, hgN1h, hgN1a, hgN1id, hgN1r,
    hgN2, hgN2h, hgN2a, hgN2id, hgN2r⟩ :=
    reseedDivisionalStage_sets_rows b seeds (getPlayoffSeeds (b.state seeds)) hs hgA hgN
  have hsc := hs
  obtain ⟨h1, h2, h3, h4, h5, h6, h7, h8, h9, h10, h11, h12, h13, h14, h15, h16,
    h17, h18, h19, h20, h21, h22, h23, h24, h25, h26, h27, h28, h29, h30,
    h31, h32, h33, h34, h35, h36, h37, h38, h39⟩ := hsc
  have hwcgate : isRoundComplete [b.wc1, b.wc2, b.wc3, b.wc4, b.wc5, b.wc6] = true := by
    unfold isRoundComplete
    simp [hc1, hc2, hc3, hc4, hc5, hc6, hv1, hv2, hv3, hv4, hv5, hv6, strTruthy,
      hn1, hn2, hn3, hn4, hn5, hn6]
  have hfin : ∀ (i : Nat) (g : Game),
      (reseedDivisionalStage (b.state seeds) (getPlayoffSeeds (b.state seeds))
        [b.wc1, b.wc2, b.wc3, b.wc4, b.wc5, b.wc6]
        [b.d1, b.d2, b.d3, b.d4]).games[i]? = some g →
      ¬g.id = 11 → ¬g.id = 12 → ¬g.id = 13 → ¬g.round = Round.super_bowl →
      (reseedPlayoffBracket (b.state seeds)).games[i]? = some g := by
    intro i g hrow hi11 hi12 hi13 hr2
    have hcid : ∀ u ∈ [b.c1, b.c2], ¬g.id = u.id := by
      intro u hu
      simp only [List.mem_cons, List.not_mem_nil, or_false] at hu
      rcases hu with rfl | rfl
      · rw [h31]; exact hi11
      · rw [h34]; exact hi12
    have hsbid : ¬g.id = b.sb.id := by rw [h37]; exact hi13
    unfold reseedPlayoffBracket
    rw [getGamesBySeason_bracket b seeds hs]
    simp only [hwcf, hdvf, hcff, hsbf, hwcgate, if_true]
    split
    · refine reseedSuperBowlStage_preserves_row _ _ _ _ i g ?_ hsbid
      split
      · exact reseedConferenceStage_preserves_row _ _ _ _ i g hrow hcid hr2
      · exact hrow
    · split
      · exact reseedConferenceStage_preserves_row _ _ _ _ i g hrow hcid hr2
      · exact hrow
  have hA1f : (reseedPlayoffBracket (b.state seeds)).games[2]? = some gA1 :=
    hfin 2 gA1 hgA1 (by rw [hgA1id]; decide) (by rw [hgA1id]; decide)
      (by rw [hgA1id]; decide) (by rw [hgA1r]; decide)
  have hA2f : (reseedPlayoffBracket (b.state seeds)).games[3]? = some gA2 :=
    hfin 3 gA2 hgA2 (by rw [hgA2id]; decide) (by rw [hgA2id]; decide)
      (by rw [hgA2id]; decide) (by rw [hgA2r]; decide)
  have hN1f : (reseedPlayoffBracket (b.state seeds)).games[4]? = some gN1 :=
    hfin 4 gN1 hgN1 (by rw [hgN1id]; decide) (by rw [hgN1id]; decide)
      (by rw [hgN1id]; decide) (by rw [hgN1r]; decide)
  have hN2f : (reseedPlayoffBracket (b.state seeds)).games[5]? = some gN2 :=
    hfin 5 gN2 hgN2 (by rw [hgN2id]; decide) (by rw [hgN2id]; decide)
      (by rw [hgN2id]; decide) (by rw [hgN2r]; decide)
  obtain ⟨xA, yA, zA, hpermA, hxyA, hyzA, htA⟩ :=
    confDivTargets_spec (getPlayoffSeeds (b.state seeds)) .AFC b.wc1 b.wc2 b.wc3
      w1 w2 w3 σ1 σ2 σ3 hv1 hv2 hv3 hσ1 hσ2 hσ3 hd12 hd13 hd23
  obtain ⟨xN, yN, zN, hpermN, hxyN, hyzN, htN⟩ :=
    confDivTargets_spec (getPlayoffSeeds (b.state seeds)) .NFC b.wc4 b.wc5 b.wc6
      w4 w5 w6 σ4 σ5 σ6 hv4 hv5 hv6 hσ4 hσ5 hσ6 hd45 hd46 hd56
  simp only [Bracket.afcWCs] at hgA1h hgA1a hgA2h hgA2a
  simp only [Bracket.nfcWCs] at hgN1h hgN1a hgN2h hgN2a
  rw [htA] at hgA1h hgA1a hgA2h hgA2a
  rw [htN] at hgN1h hgN1a hgN2h hgN2a
  exact ⟨⟨xA, yA, zA, hpermA, hxyA, hyzA,
      ⟨gA1, hA1f, hgA1h, hgA1a⟩, ⟨gA2, hA2f, hgA2h, hgA2a⟩⟩,
    ⟨xN, yN, zN, hpermN, hxyN, hyzN,
      ⟨gN1, hN1f, hgN1h, hgN1a⟩, ⟨gN2, hN2f, hgN2h, hgN2a⟩⟩⟩

/-- C4 witness: on the chalk season with all six wild card games decided
(favourites 2, 3 and 4 beat 7, 6 and 5 in both conferences) the re-seeded
divisional round is #1 vs #4 and #2 vs #3 in each conference. -/
theorem c4_divisional_matchups_witness :
    ((∃ x y z : TeamSeed,
      [x, y, z].Perm [⟨"A2", 2⟩, ⟨"A3", 3⟩, ⟨"A4", 4⟩] ∧
      x.seed < y.seed ∧ y.seed < z.seed ∧
      (∃ g, (reseedPlayoffBracket (chalkWCBracket.state chalkSeeds)).games[2]? = some g ∧
        g.team_home = conf1SeedTeam (getPlayoffSeeds (chalkWCBracket.state chalkSeeds)) .AFC ∧
        g.team_away = z.team) ∧
      (∃ g, (reseedPlayoffBracket (chalkWCBracket.state chalkSeeds)).games[3]? = some g ∧
        g.team_home = x.team ∧ g.team_away = y.team)) ∧
    (∃ x y z : TeamSeed,
      [x, y, z].Perm [⟨"N2", 2⟩, ⟨"N3", 3⟩, ⟨"N4", 4⟩] ∧
      x.seed < y.seed ∧ y.seed < z.seed ∧
      (∃ g, (reseedPlayoffBracket (chalkWCBracket.state chalkSeeds)).games[4]? = some g ∧
        g.team_home = conf1SeedTeam (getPlayoffSeeds (chalkWCBracket.state chalkSeeds)) .NFC ∧
        g.team_away = z.team) ∧
      (∃ g, (reseedPlayoffBracket (chalkWCBracket.state chalkSeeds)).games[5]? = some g ∧
        g.team_home = x.team ∧ g.team_away = y.team))) ∧
    (reseedPlayoffBracket (chalkWCBracket.state chalkSeeds)).games.map
      (fun g => (g.team_home, g.team_away)) =
      [("TBD", "TBD"), ("TBD", "TBD"),
       ("A1", "A4"), ("A2", "A3"), ("N1", "N4"), ("N2", "N3"),
       ("TBD", "TBD"),
       ("A2", "A7"), ("A3", "A6"), ("A4", "A5"),
       ("N2", "N7"), ("N3", "N6"), ("N4", "N5")] :=
  ⟨c4_divisional_matchups chalkWCBracket chalkSeeds "A2" "A3" "A4" "N2" "N3" "N4"
      2 3 4 2 3 4 (by decide)
      (by decide) (by decide) (by decide) (by decide) (by decide) (by decide)
      (by decide) (by decide) (by decide) (by decide) (by decide) (by decide)
      (by decide) (by decide) (by decide) (by decide) (by decide) (by decide)
      (by decide) (by decide) (by decide) (by decide) (by decide) (by decide)
      (by decide) (by decide) (by decide) (by decide) (by decide) (by decide),
    by decide⟩

end NflPredictor
